import Mathlib

/-!
Verification development for the `aiocogeo-rs` COG (Cloud-Optimized GeoTIFF)
reader.  The definitions below are a shallow embedding of the Rust sources:

* `src/ifd.rs` — `ImageFileDirectory`, `ImageFileDirectories::open`,
  `read_tag`, `read_tag_value`, tile addressing and the geotransform;
* `src/cog.rs` — `COGReader::try_open` and its local header/IFD stubs;
* `src/geo_key_directory.rs` — `GeoKeyDirectory::from_tags`, `epsg_code`;
* `src/cursor.rs` — `ObjectStoreCursor` (modelled with an explicit trace of
  remote reads and seeks);
* `src/affine.rs` — `AffineTransform`;
* `src/error.rs` — the crate error enum.

Modelling conventions:

* Rust `u16`/`u32`/`usize` values are `Nat` (casts that can wrap or saturate
  are modelled explicitly where they occur); signed integers are `Int`.
* `f64`/`f32` values are modelled as exact rationals (`Rat`).  Every floating
  point computation exercised by the claims (storing tag doubles, negation,
  products and sums of integral values far below 2^53, and ceiling division
  of `u32` values) is exact in IEEE double precision, so the rational model
  agrees with the Rust semantics at every input appearing in a theorem below.
* Rust panics (`unwrap()` on `None`/`Err`, failed `assert_eq!`, `todo!()`,
  `unreachable!()`, and out-of-bounds indexing) are modelled by a dedicated
  `panicked` outcome, kept distinct from `Err(_)` values (`err`), because
  several claims distinguish "returns an error" from "panics".
* `HashMap`s keyed by tags are modelled as association lists with unique
  keys; `HashMap::drain` visits entries in an unspecified order, which can
  only affect *which* failure surfaces when two different entries fail.  The
  model resolves that nondeterminism by checking error-producing conversions
  before panic-producing ones; every input used by a theorem below has at
  most one failing entry, where the code is deterministic and the model
  agrees with it exactly.
-/

set_option autoImplicit false

/-- Outcome of a fallible Rust computation: `ok` is a normal return, `err`
models an `Err(_)` value of the surrounding `Result`/`TiffResult` type
(produced by `?`), and `panicked` models a Rust panic. -/
inductive DecodeResult (α : Type) where
  | ok (a : α)
  | err
  | panicked
deriving DecidableEq, Repr

/-- Monadic bind on `DecodeResult`: `err` and `panicked` short-circuit,
mirroring `?`-propagation and panic unwinding. -/
def DecodeResult.bind {α β : Type} : DecodeResult α → (α → DecodeResult β) → DecodeResult β
  | .ok a, f => f a
  | .err, _ => .err
  | .panicked, _ => .panicked

instance : Monad DecodeResult where
  pure := DecodeResult.ok
  bind := DecodeResult.bind

/-- Functorial map on `DecodeResult`. -/
def DecodeResult.map {α β : Type} (f : α → β) : DecodeResult α → DecodeResult β
  | .ok a => .ok (f a)
  | .err => .err
  | .panicked => .panicked

/-- Forget the payload of a successful outcome. -/
def DecodeResult.asUnit {α : Type} : DecodeResult α → DecodeResult Unit
  | .ok _ => .ok ()
  | .err => .err
  | .panicked => .panicked

/-- `Result::unwrap()`: an `Err` value turns into a panic. -/
def DecodeResult.unwrapR {α : Type} : DecodeResult α → DecodeResult α
  | .ok a => .ok a
  | .err => .panicked
  | .panicked => .panicked

/-- Successful payload, if any. -/
def DecodeResult.toOption {α : Type} : DecodeResult α → Option α
  | .ok a => some a
  | _ => none

/-- Boolean test for the `panicked` outcome. -/
def DecodeResult.isPanicked {α : Type} : DecodeResult α → Bool
  | .panicked => true
  | _ => false

/-- Boolean test for the `err` outcome. -/
def DecodeResult.isErr {α : Type} : DecodeResult α → Bool
  | .err => true
  | _ => false

/-- Boolean test for the `ok` outcome. -/
def DecodeResult.isOk {α : Type} : DecodeResult α → Bool
  | .ok _ => true
  | _ => false

/-- `Option::unwrap()`: `None` panics. -/
def unwrapO {α : Type} : Option α → DecodeResult α
  | some a => .ok a
  | none => .panicked

/-- `tiff::decoder::ifd::Value` (the dependency pinned by the comment in
`src/ifd.rs`, image-tiff commit 6dc7a26): the tagged union of decoded TIFF
tag values.  `float`/`double` carry the exact rational value of the IEEE
number; `list` is the on-disk-ordered sequence variant. -/
inductive Value where
  | byte (v : Nat)
  | short (v : Nat)
  | signed (v : Int)
  | signedBig (v : Int)
  | unsigned (v : Nat)
  | unsignedBig (v : Nat)
  | float (v : Rat)
  | double (v : Rat)
  | rational (n d : Nat)
  | srational (n d : Int)
  | ascii (s : String)
  | ifd (v : Nat)
  | ifdBig (v : Nat)
  | list (vs : List Value)

/-- `Value::into_u16` (modelled from the tiff dependency): unsigned numeric
variants that fit in `u16` convert; anything else is a format error. -/
def Value.into_u16 : Value → DecodeResult Nat
  | .byte v => .ok v
  | .short v => .ok v
  | .unsigned v => if v < 65536 then .ok v else .err
  | .unsignedBig v => if v < 65536 then .ok v else .err
  | _ => .err

/-- `Value::into_u32` (modelled from the tiff dependency). -/
def Value.into_u32 : Value → DecodeResult Nat
  | .byte v => .ok v
  | .short v => .ok v
  | .unsigned v => .ok v
  | .unsignedBig v => if v < 4294967296 then .ok v else .err
  | .ifd v => .ok v
  | .ifdBig v => if v < 4294967296 then .ok v else .err
  | _ => .err

/-- `Value::into_u8` (modelled from the tiff dependency). -/
def Value.into_u8 : Value → DecodeResult Nat
  | .byte v => .ok v
  | _ => .err

/-- `Value::into_f64` (modelled from the tiff dependency): `Float` widens
exactly, `Double` is returned as is. -/
def Value.into_f64 : Value → DecodeResult Rat
  | .float v => .ok v
  | .double v => .ok v
  | _ => .err

/-- `Value::into_string` (modelled from the tiff dependency). -/
def Value.into_string : Value → DecodeResult String
  | .ascii s => .ok s
  | _ => .err

/-- `Value::into_u16_vec` (modelled from the tiff dependency): a list
converts elementwise, a scalar converts to a singleton. -/
def Value.into_u16_vec : Value → DecodeResult (List Nat)
  | .list vs => vs.mapM Value.into_u16
  | v => (v.into_u16).map (fun x => [x])

/-- `Value::into_u32_vec` (modelled from the tiff dependency). -/
def Value.into_u32_vec : Value → DecodeResult (List Nat)
  | .list vs => vs.mapM Value.into_u32
  | v => (v.into_u32).map (fun x => [x])

/-- `Value::into_u8_vec` (modelled from the tiff dependency). -/
def Value.into_u8_vec : Value → DecodeResult (List Nat)
  | .list vs => vs.mapM Value.into_u8
  | v => (v.into_u8).map (fun x => [x])

/-- `Value::into_f64_vec` (modelled from the tiff dependency). -/
def Value.into_f64_vec : Value → DecodeResult (List Rat)
  | .list vs => vs.mapM Value.into_f64
  | v => (v.into_f64).map (fun x => [x])

/-- The TIFF tags recognised by `ImageFileDirectory::from_tags` in
`src/ifd.rs`.  Tags the match statement sends to the `other_tags` catch-all
(every tag of the tiff crate's `Tag` enum not listed there, and every
numeric code without an enum variant) are collapsed into `unknown code`,
which preserves the code exactly as `Tag::Unknown` does. -/
inductive Tag where
  | NewSubfileType
  | ImageWidth
  | ImageLength
  | BitsPerSample
  | Compression
  | PhotometricInterpretation
  | ImageDescription
  | StripOffsets
  | Orientation
  | SamplesPerPixel
  | RowsPerStrip
  | StripByteCounts
  | MinSampleValue
  | MaxSampleValue
  | XResolution
  | YResolution
  | PlanarConfiguration
  | ResolutionUnit
  | Software
  | DateTime
  | Artist
  | HostComputer
  | Predictor
  | ColorMap
  | TileWidth
  | TileLength
  | TileOffsets
  | TileByteCounts
  | ExtraSamples
  | SampleFormat
  | JPEGTables
  | Copyright
  | GeoKeyDirectoryTag
  | ModelPixelScaleTag
  | ModelTiepointTag
  | GeoAsciiParamsTag
  | GeoDoubleParamsTag
  | unknown (code : Nat)
deriving DecidableEq, Repr

/-- `tiff::tags::PhotometricInterpretation` (codes 0-6 and 8). -/
inductive PhotometricInterpretationT where
  | WhiteIsZero
  | BlackIsZero
  | RGB
  | RGBPalette
  | TransparencyMask
  | CMYK
  | YCbCr
  | CIELab
deriving DecidableEq, Repr

/-- `PhotometricInterpretation::from_u16`: known codes decode, anything else
is `None`. -/
def PhotometricInterpretationT.from_u16 : Nat → Option PhotometricInterpretationT
  | 0 => some .WhiteIsZero
  | 1 => some .BlackIsZero
  | 2 => some .RGB
  | 3 => some .RGBPalette
  | 4 => some .TransparencyMask
  | 5 => some .CMYK
  | 6 => some .YCbCr
  | 8 => some .CIELab
  | _ => none

/-- `tiff::tags::PlanarConfiguration` (codes 1 and 2). -/
inductive PlanarConfigurationT where
  | Chunky
  | Planar
deriving DecidableEq, Repr

/-- `PlanarConfiguration::from_u16`. -/
def PlanarConfigurationT.from_u16 : Nat → Option PlanarConfigurationT
  | 1 => some .Chunky
  | 2 => some .Planar
  | _ => none

/-- `tiff::tags::Predictor` (codes 1, 2, 3). -/
inductive PredictorT where
  | noPrediction
  | horizontal
  | floatingPoint
deriving DecidableEq, Repr

/-- `Predictor::from_u16`. -/
def PredictorT.from_u16 : Nat → Option PredictorT
  | 1 => some .noPrediction
  | 2 => some .horizontal
  | 3 => some .floatingPoint
  | _ => none

/-- `tiff::tags::ResolutionUnit` (codes 1, 2, 3). -/
inductive ResolutionUnitT where
  | noUnit
  | inch
  | centimeter
deriving DecidableEq, Repr

/-- `ResolutionUnit::from_u16`. -/
def ResolutionUnitT.from_u16 : Nat → Option ResolutionUnitT
  | 1 => some .noUnit
  | 2 => some .inch
  | 3 => some .centimeter
  | _ => none

/-- `tiff::tags::CompressionMethod`, modelled by its `u16` code.
`CompressionMethod::from_u16_exhaustive` is total (unknown codes map to the
`Unknown` variant carrying the code), i.e. code-preserving, so the model is
the identity on codes. -/
abbrev CompressionMethodT := Nat

/-- `CompressionMethod::from_u16_exhaustive` (total, code-preserving). -/
def CompressionMethodT.from_u16_exhaustive (v : Nat) : CompressionMethodT := v

/-- `tiff::tags::SampleFormat`, modelled by its `u16` code; its
`from_u16_exhaustive` is likewise total and code-preserving. -/
abbrev SampleFormatT := Nat

/-- `SampleFormat::from_u16_exhaustive` (total, code-preserving). -/
def SampleFormatT.from_u16_exhaustive (v : Nat) : SampleFormatT := v

/-- `GeoKeyTag` from `src/geo_key_directory.rs`: the GeoTIFF configuration,
geodetic, projected and vertical CRS parameter keys. -/
inductive GeoKeyTag where
  | ModelType
  | RasterType
  | Citation
  | GeographicType
  | GeogCitation
  | GeogGeodeticDatum
  | GeogPrimeMeridian
  | GeogLinearUnits
  | GeogLinearUnitSize
  | GeogAngularUnits
  | GeogAngularUnitSize
  | GeogEllipsoid
  | GeogSemiMajorAxis
  | GeogSemiMinorAxis
  | GeogInvFlattening
  | GeogAzimuthUnits
  | GeogPrimeMeridianLong
  | ProjectedType
  | ProjCitation
  | ProjectionGeoKey
  | ProjCoordTransGeoKey
  | ProjLinearUnitsGeoKey
  | ProjLinearUnitSizeGeoKey
  | ProjStdParallel1GeoKey
  | ProjStdParallel2GeoKey
  | ProjNatOriginLongGeoKey
  | ProjNatOriginLatGeoKey
  | ProjFalseEastingGeoKey
  | ProjFalseNorthingGeoKey
  | ProjFalseOriginLongGeoKey
  | ProjFalseOriginLatGeoKey
  | ProjFalseOriginEastingGeoKey
  | ProjFalseOriginNorthingGeoKey
  | ProjCenterLongGeoKey
  | ProjCenterLatGeoKey
  | ProjCenterEastingGeoKey
  | ProjCenterNorthingGeoKey
  | ProjScaleAtNatOriginGeoKey
  | ProjScaleAtCenterGeoKey
  | ProjAzimuthAngleGeoKey
  | ProjStraightVertPoleLongGeoKey
  | VerticalGeoKey
  | VerticalCitationGeoKey
  | VerticalDatumGeoKey
  | VerticalUnitsGeoKey
deriving DecidableEq, Repr

/-- `GeoKeyTag::try_from_primitive` (via `num_enum::TryFromPrimitive` and
the `#[repr(u16)]` discriminants in `src/geo_key_directory.rs`). -/
def GeoKeyTag.try_from_primitive : Nat → Option GeoKeyTag
  | 1024 => some .ModelType
  | 1025 => some .RasterType
  | 1026 => some .Citation
  | 2048 => some .GeographicType
  | 2049 => some .GeogCitation
  | 2050 => some .GeogGeodeticDatum
  | 2051 => some .GeogPrimeMeridian
  | 2052 => some .GeogLinearUnits
  | 2053 => some .GeogLinearUnitSize
  | 2054 => some .GeogAngularUnits
  | 2055 => some .GeogAngularUnitSize
  | 2056 => some .GeogEllipsoid
  | 2057 => some .GeogSemiMajorAxis
  | 2058 => some .GeogSemiMinorAxis
  | 2059 => some .GeogInvFlattening
  | 2060 => some .GeogAzimuthUnits
  | 2061 => some .GeogPrimeMeridianLong
  | 3072 => some .ProjectedType
  | 3073 => some .ProjCitation
  | 3074 => some .ProjectionGeoKey
  | 3075 => some .ProjCoordTransGeoKey
  | 3076 => some .ProjLinearUnitsGeoKey
  | 3077 => some .ProjLinearUnitSizeGeoKey
  | 3078 => some .ProjStdParallel1GeoKey
  | 3079 => some .ProjStdParallel2GeoKey
  | 3080 => some .ProjNatOriginLongGeoKey
  | 3081 => some .ProjNatOriginLatGeoKey
  | 3082 => some .ProjFalseEastingGeoKey
  | 3083 => some .ProjFalseNorthingGeoKey
  | 3084 => some .ProjFalseOriginLongGeoKey
  | 3085 => some .ProjFalseOriginLatGeoKey
  | 3086 => some .ProjFalseOriginEastingGeoKey
  | 3087 => some .ProjFalseOriginNorthingGeoKey
  | 3088 => some .ProjCenterLongGeoKey
  | 3089 => some .ProjCenterLatGeoKey
  | 3090 => some .ProjCenterEastingGeoKey
  | 3091 => some .ProjCenterNorthingGeoKey
  | 3092 => some .ProjScaleAtNatOriginGeoKey
  | 3093 => some .ProjScaleAtCenterGeoKey
  | 3094 => some .ProjAzimuthAngleGeoKey
  | 3095 => some .ProjStraightVertPoleLongGeoKey
  | 4096 => some .VerticalGeoKey
  | 4097 => some .VerticalCitationGeoKey
  | 4098 => some .VerticalDatumGeoKey
  | 4099 => some .VerticalUnitsGeoKey
  | _ => none

/-- `GeoKeyDirectory` from `src/geo_key_directory.rs`: one `Option` field
per GeoKey, with `u16` keys as `Nat`, `f64` keys as `Rat` and citation keys
as `String`, in the order of the Rust struct. -/
structure GeoKeyDirectory where
  model_type : Option Nat
  raster_type : Option Nat
  citation : Option String
  geographic_type : Option Nat
  geog_citation : Option String
  geog_geodetic_datum : Option Nat
  geog_prime_meridian : Option Nat
  geog_linear_units : Option Nat
  geog_linear_unit_size : Option Rat
  geog_angular_units : Option Nat
  geog_angular_unit_size : Option Rat
  geog_ellipsoid : Option Nat
  geog_semi_major_axis : Option Rat
  geog_semi_minor_axis : Option Rat
  geog_inv_flattening : Option Rat
  geog_azimuth_units : Option Nat
  geog_prime_meridian_long : Option Rat
  projected_type : Option Nat
  proj_citation : Option String
  projection_geo_key : Option Nat
  proj_coord_trans_geo_key : Option Nat
  proj_linear_units_geo_key : Option Nat
  proj_linear_unit_size_geo_key : Option Rat
  proj_std_parallel1_geo_key : Option Rat
  proj_std_parallel2_geo_key : Option Rat
  proj_nat_origin_long_geo_key : Option Rat
  proj_nat_origin_lat_geo_key : Option Rat
  proj_false_easting_geo_key : Option Rat
  proj_false_northing_geo_key : Option Rat
  proj_false_origin_long_geo_key : Option Rat
  proj_false_origin_lat_geo_key : Option Rat
  proj_false_origin_easting_geo_key : Option Rat
  proj_false_origin_northing_geo_key : Option Rat
  proj_center_long_geo_key : Option Rat
  proj_center_lat_geo_key : Option Rat
  proj_center_easting_geo_key : Option Rat
  proj_center_northing_geo_key : Option Rat
  proj_scale_at_nat_origin_geo_key : Option Rat
  proj_scale_at_center_geo_key : Option Rat
  proj_azimuth_angle_geo_key : Option Rat
  proj_straight_vert_pole_long_geo_key : Option Rat
  vertical_geo_key : Option Nat
  vertical_citation_geo_key : Option String
  vertical_datum_geo_key : Option Nat
  vertical_units_geo_key : Option Nat
deriving DecidableEq, Repr

/-- The conversion each arm of `GeoKeyDirectory::from_tags` applies to its
tag's value: `into_u16`, `into_f64` or `into_string`. -/
inductive GeoKeyKind where
  | ku16
  | kf64
  | kstring
deriving DecidableEq, Repr

/-- Which conversion `GeoKeyDirectory::from_tags` applies to each key,
read off the match arms in `src/geo_key_directory.rs`. -/
def GeoKeyTag.kind : GeoKeyTag → GeoKeyKind
  | .ModelType => .ku16
  | .RasterType => .ku16
  | .Citation => .kstring
  | .GeographicType => .ku16
  | .GeogCitation => .kstring
  | .GeogGeodeticDatum => .ku16
  | .GeogPrimeMeridian => .ku16
  | .GeogLinearUnits => .ku16
  | .GeogLinearUnitSize => .kf64
  | .GeogAngularUnits => .ku16
  | .GeogAngularUnitSize => .kf64
  | .GeogEllipsoid => .ku16
  | .GeogSemiMajorAxis => .kf64
  | .GeogSemiMinorAxis => .kf64
  | .GeogInvFlattening => .kf64
  | .GeogAzimuthUnits => .ku16
  | .GeogPrimeMeridianLong => .kf64
  | .ProjectedType => .ku16
  | .ProjCitation => .kstring
  | .ProjectionGeoKey => .ku16
  | .ProjCoordTransGeoKey => .ku16
  | .ProjLinearUnitsGeoKey => .ku16
  | .ProjLinearUnitSizeGeoKey => .kf64
  | .ProjStdParallel1GeoKey => .kf64
  | .ProjStdParallel2GeoKey => .kf64
  | .ProjNatOriginLongGeoKey => .kf64
  | .ProjNatOriginLatGeoKey => .kf64
  | .ProjFalseEastingGeoKey => .kf64
  | .ProjFalseNorthingGeoKey => .kf64
  | .ProjFalseOriginLongGeoKey => .kf64
  | .ProjFalseOriginLatGeoKey => .kf64
  | .ProjFalseOriginEastingGeoKey => .kf64
  | .ProjFalseOriginNorthingGeoKey => .kf64
  | .ProjCenterLongGeoKey => .kf64
  | .ProjCenterLatGeoKey => .kf64
  | .ProjCenterEastingGeoKey => .kf64
  | .ProjCenterNorthingGeoKey => .kf64
  | .ProjScaleAtNatOriginGeoKey => .kf64
  | .ProjScaleAtCenterGeoKey => .kf64
  | .ProjAzimuthAngleGeoKey => .kf64
  | .ProjStraightVertPoleLongGeoKey => .kf64
  | .VerticalGeoKey => .ku16
  | .VerticalCitationGeoKey => .kstring
  | .VerticalDatumGeoKey => .ku16
  | .VerticalUnitsGeoKey => .ku16

/-- The GeoKey tag map handed to `GeoKeyDirectory::from_tags`, modelling
`HashMap<GeoKeyTag, Value>` as an association list with unique keys. -/
abbrev GeoKeyMap := List (GeoKeyTag × Value)

/-- Map lookup (`HashMap::get`). -/
def lookupGeoKey (m : GeoKeyMap) (t : GeoKeyTag) : Option Value :=
  (m.find? (fun p => p.1 = t)).map Prod.snd

/-- Present-and-converted `u16` value of a key, if any. -/
def geoKeyU16 (m : GeoKeyMap) (t : GeoKeyTag) : Option Nat :=
  (lookupGeoKey m t).bind (fun v => v.into_u16.toOption)

/-- Present-and-converted `f64` value of a key, if any. -/
def geoKeyF64 (m : GeoKeyMap) (t : GeoKeyTag) : Option Rat :=
  (lookupGeoKey m t).bind (fun v => v.into_f64.toOption)

/-- Present-and-converted string value of a key, if any. -/
def geoKeyStr (m : GeoKeyMap) (t : GeoKeyTag) : Option String :=
  (lookupGeoKey m t).bind (fun v => v.into_string.toOption)

/-- Whether the `from_tags` arm for key `t` converts `v` successfully. -/
def geoKeyConvOk (t : GeoKeyTag) (v : Value) : Bool :=
  match t.kind with
  | .ku16 => v.into_u16.isOk
  | .kf64 => v.into_f64.isOk
  | .kstring => v.into_string.isOk

/-- `GeoKeyDirectory::from_tags` from `src/geo_key_directory.rs`.  The Rust
code drains the map, converting each entry with `into_u16?`/`into_f64?`/
`into_string?` and storing it in the matching field; the first failing
conversion aborts with that error (`?`), and success yields the struct of
all converted entries.  Because map keys are unique and every arm writes a
distinct field, that loop is equivalent to: fail iff some entry's
conversion fails, else build the struct by per-key lookup, which is how it
is written here. -/
def GeoKeyDirectory.from_tags (m : GeoKeyMap) : DecodeResult GeoKeyDirectory :=
  if m.all (fun p => geoKeyConvOk p.1 p.2) then
    .ok {
      model_type := geoKeyU16 m .ModelType
      raster_type := geoKeyU16 m .RasterType
      citation := geoKeyStr m .Citation
      geographic_type := geoKeyU16 m .GeographicType
      geog_citation := geoKeyStr m .GeogCitation
      geog_geodetic_datum := geoKeyU16 m .GeogGeodeticDatum
      geog_prime_meridian := geoKeyU16 m .GeogPrimeMeridian
      geog_linear_units := geoKeyU16 m .GeogLinearUnits
      geog_linear_unit_size := geoKeyF64 m .GeogLinearUnitSize
      geog_angular_units := geoKeyU16 m .GeogAngularUnits
      geog_angular_unit_size := geoKeyF64 m .GeogAngularUnitSize
      geog_ellipsoid := geoKeyU16 m .GeogEllipsoid
      geog_semi_major_axis := geoKeyF64 m .GeogSemiMajorAxis
      geog_semi_minor_axis := geoKeyF64 m .GeogSemiMinorAxis
      geog_inv_flattening := geoKeyF64 m .GeogInvFlattening
      geog_azimuth_units := geoKeyU16 m .GeogAzimuthUnits
      geog_prime_meridian_long := geoKeyF64 m .GeogPrimeMeridianLong
      projected_type := geoKeyU16 m .ProjectedType
      proj_citation := geoKeyStr m .ProjCitation
      projection_geo_key := geoKeyU16 m .ProjectionGeoKey
      proj_coord_trans_geo_key := geoKeyU16 m .ProjCoordTransGeoKey
      proj_linear_units_geo_key := geoKeyU16 m .ProjLinearUnitsGeoKey
      proj_linear_unit_size_geo_key := geoKeyF64 m .ProjLinearUnitSizeGeoKey
      proj_std_parallel1_geo_key := geoKeyF64 m .ProjStdParallel1GeoKey
      proj_std_parallel2_geo_key := geoKeyF64 m .ProjStdParallel2GeoKey
      proj_nat_origin_long_geo_key := geoKeyF64 m .ProjNatOriginLongGeoKey
      proj_nat_origin_lat_geo_key := geoKeyF64 m .ProjNatOriginLatGeoKey
      proj_false_easting_geo_key := geoKeyF64 m .ProjFalseEastingGeoKey
      proj_false_northing_geo_key := geoKeyF64 m .ProjFalseNorthingGeoKey
      proj_false_origin_long_geo_key := geoKeyF64 m .ProjFalseOriginLongGeoKey
      proj_false_origin_lat_geo_key := geoKeyF64 m .ProjFalseOriginLatGeoKey
      proj_false_origin_easting_geo_key := geoKeyF64 m .ProjFalseOriginEastingGeoKey
      proj_false_origin_northing_geo_key := geoKeyF64 m .ProjFalseOriginNorthingGeoKey
      proj_center_long_geo_key := geoKeyF64 m .ProjCenterLongGeoKey
      proj_center_lat_geo_key := geoKeyF64 m .ProjCenterLatGeoKey
      proj_center_easting_geo_key := geoKeyF64 m .ProjCenterEastingGeoKey
      proj_center_northing_geo_key := geoKeyF64 m .ProjCenterNorthingGeoKey
      proj_scale_at_nat_origin_geo_key := geoKeyF64 m .ProjScaleAtNatOriginGeoKey
      proj_scale_at_center_geo_key := geoKeyF64 m .ProjScaleAtCenterGeoKey
      proj_azimuth_angle_geo_key := geoKeyF64 m .ProjAzimuthAngleGeoKey
      proj_straight_vert_pole_long_geo_key := geoKeyF64 m .ProjStraightVertPoleLongGeoKey
      vertical_geo_key := geoKeyU16 m .VerticalGeoKey
      vertical_citation_geo_key := geoKeyStr m .VerticalCitationGeoKey
      vertical_datum_geo_key := geoKeyU16 m .VerticalDatumGeoKey
      vertical_units_geo_key := geoKeyU16 m .VerticalUnitsGeoKey
    }
  else .err

/-- `GeoKeyDirectory::epsg_code` from `src/geo_key_directory.rs`: the
projected CRS key if present, otherwise the geographic CRS key. -/
def GeoKeyDirectory.epsg_code (g : GeoKeyDirectory) : Option Nat :=
  match g.projected_type with
  | some projected_type => some projected_type
  | none => g.geographic_type

/-- `AffineTransform` from `src/affine.rs`: six `f64` coefficients, stored in
the order of `AffineTransform::new(a, b, xoff, d, e, yoff)`; the accessors
`a() .. f()` return the six stored slots in order, so `c = xoff` and
`f = yoff`. -/
structure AffineTransform where
  a : Rat
  b : Rat
  c : Rat
  d : Rat
  e : Rat
  f : Rat
deriving DecidableEq, Repr

/-- `ImageFileDirectory` from `src/ifd.rs`: the decoded IFD.  Field names,
order and optionality follow the Rust struct; `u16`/`u32` become `Nat`,
`f64` becomes `Rat`, and the `other_tags: HashMap<Tag, Value>` overflow map
becomes an association list. -/
structure ImageFileDirectory where
  new_subfile_type : Option Nat
  image_width : Nat
  image_height : Nat
  bits_per_sample : List Nat
  compression : CompressionMethodT
  photometric_interpretation : PhotometricInterpretationT
  document_name : Option String
  image_description : Option String
  strip_offsets : Option (List Nat)
  orientation : Option Nat
  samples_per_pixel : Nat
  rows_per_strip : Option Nat
  strip_byte_counts : Option (List Nat)
  min_sample_value : Option (List Nat)
  max_sample_value : Option (List Nat)
  x_resolution : Option Rat
  y_resolution : Option Rat
  planar_configuration : PlanarConfigurationT
  resolution_unit : Option ResolutionUnitT
  software : Option String
  date_time : Option String
  artist : Option String
  host_computer : Option String
  predictor : Option PredictorT
  color_map : Option (List Nat)
  tile_width : Nat
  tile_height : Nat
  tile_offsets : List Nat
  tile_byte_counts : List Nat
  extra_samples : Option (List Nat)
  sample_format : List SampleFormatT
  jpeg_tables : Option (List Nat)
  copyright : Option String
  geo_key_directory : Option GeoKeyDirectory
  model_pixel_scale : Option (List Rat)
  model_tiepoint : Option (List Rat)
  other_tags : List (Tag × Value)
  next_ifd_offset : Option Nat

/-- `ImageFileDirectory::is_full_resolution` from `src/ifd.rs`: returns
`val != 0` when `NewSubfileType` is present and `true` when it is absent.
(Note: the function's own doc comment says it should be true exactly for
the full-resolution image; see the theorem for claim C1.) -/
def ImageFileDirectory.is_full_resolution (d : ImageFileDirectory) : Bool :=
  match d.new_subfile_type with
  | some val => val != 0
  | none => true

/-- Rust's `usize::MAX` on a 64-bit target: the result of casting `f64`
positive infinity to `usize` (saturating float-to-int cast). -/
def usizeMax : Nat := 18446744073709551615

/-- One component of `ImageFileDirectory::tile_count`, which computes
`(w as f64 / tw as f64).ceil() as usize`.  For `u32` inputs with `tw > 0`
the IEEE double quotient `w / tw` rounds to a value with the same ceiling
as the exact rational quotient (a misrounding across an integer would need
the fractional part `r/tw` (`1 <= r < tw`) to come within half an ulp of an
integer `q <= w/tw <= 2^32`, i.e. `r <= w * 2^-52 < 1`, impossible), so the
cast result is exactly the natural-number ceiling division.  For `tw = 0`
the quotient is `inf` (saturating to `usize::MAX`) unless `w = 0`, where it
is `NaN` (casting to 0). -/
def ceilDivF64 (w tw : Nat) : Nat :=
  if tw = 0 then (if w = 0 then 0 else usizeMax)
  else (w + tw - 1) / tw

/-- `ImageFileDirectory::tile_count` from `src/ifd.rs`: the number of x/y
tiles, via floating ceiling division of the image dimensions by the tile
dimensions. -/
def ImageFileDirectory.tile_count (d : ImageFileDirectory) : Nat × Nat :=
  (ceilDivF64 d.image_width d.tile_width, ceilDivF64 d.image_height d.tile_height)

/-- Possible outcomes of `ImageFileDirectory::get_tile` in `src/ifd.rs`.
The function indexes `tile_offsets[idx]` and `tile_byte_counts[idx]`
(panicking if `idx` is out of bounds: `panickedIndex`) and then
unconditionally hits `todo!()`; `panickedTodo off byte_count` records the
tile byte range it had already resolved when it did. -/
inductive GetTileOutcome where
  | panickedIndex
  | panickedTodo (offset byte_count : Nat)
deriving DecidableEq, Repr

/-- `ImageFileDirectory::get_tile` from `src/ifd.rs`: flattens `(x, y)` to
`idx = y * tile_count().0 + x` with no bounds check on `x`/`y`, reads the
tile byte range at `idx`, then hits `todo!()`. -/
def ImageFileDirectory.get_tile (d : ImageFileDirectory) (x y : Nat) : GetTileOutcome :=
  let idx := y * d.tile_count.1 + x
  match d.tile_offsets.get? idx with
  | none => .panickedIndex
  | some offset =>
    match d.tile_byte_counts.get? idx with
    | none => .panickedIndex
    | some byte_count => .panickedTodo offset byte_count

/-- `ImageFileDirectory::geotransform` from `src/ifd.rs`: requires both
`ModelPixelScale` and `ModelTiepoint`; builds
`AffineTransform::new(scale[0], 0.0, tiepoint[3], 0.0, -scale[1],
tiepoint[4])`.  The Rust `Vec` indexing panics when an index is out of
bounds, modelled by `panicked`; when either tag is absent the result is
`ok none`. -/
def ImageFileDirectory.geotransform (d : ImageFileDirectory) :
    DecodeResult (Option AffineTransform) :=
  match d.model_pixel_scale, d.model_tiepoint with
  | some model_pixel_scale, some model_tiepoint =>
    match model_pixel_scale.get? 0, model_pixel_scale.get? 1,
        model_tiepoint.get? 3, model_tiepoint.get? 4 with
    | some s0, some s1, some t3, some t4 =>
      .ok (some (AffineTransform.mk s0 0 t3 0 (-s1) t4))
    | _, _, _, _ => .panicked
  | _, _ => .ok none

/-- `ImageFileDirectory::native_bounds` from `src/ifd.rs`: top-left corner
from the transform's translation terms, bottom-right from adding the scaled
image dimensions, returned as `(tlx, bry, brx, tly)`. -/
def ImageFileDirectory.native_bounds (d : ImageFileDirectory) :
    DecodeResult (Option (Rat × Rat × Rat × Rat)) :=
  match d.geotransform with
  | .ok (some gt) =>
    let tlx := gt.c
    let tly := gt.f
    let brx := tlx + gt.a * (d.image_width : Rat)
    let bry := tly + gt.e * (d.image_height : Rat)
    .ok (some (tlx, bry, brx, tly))
  | .ok none => .ok none
  | .err => .err
  | .panicked => .panicked

/-- `ImageFileDirectory::is_masked` from `src/ifd.rs`: subfile type 1 or 2,
transparency-mask photometric interpretation and Deflate compression
(`CompressionMethod::Deflate` has code 8) must all agree. -/
def ImageFileDirectory.is_masked (d : ImageFileDirectory) : Bool :=
  match d.new_subfile_type with
  | some subfile_type =>
    (subfile_type == 1 || subfile_type == 2)
      && d.photometric_interpretation == .TransparencyMask
      && d.compression == 8
  | none => false

/-- The tag map handed to `ImageFileDirectory::from_tags`, modelling
`HashMap<Tag, Value>` as an association list with unique keys. -/
abbrev TagMap := List (Tag × Value)

/-- Map lookup (`HashMap::get`). -/
def lookupTag (m : TagMap) (t : Tag) : Option Value :=
  (m.find? (fun p => p.1 = t)).map Prod.snd

/-- The effect of one iteration of the `tag_data.drain()` loop in
`ImageFileDirectory::from_tags` on the entry `(t, v)`: `ok` if the arm's
conversion succeeds, `err` if a `?`-converted arm fails, `panicked` if an
`unwrap()`ed conversion fails or an `unreachable!()` arm is hit
(`XResolution`/`YResolution` with a non-`Rational` value). -/
def tagEntryOutcome : Tag → Value → DecodeResult Unit
  | .NewSubfileType, v => v.into_u32.asUnit
  | .ImageWidth, v => v.into_u32.asUnit
  | .ImageLength, v => v.into_u32.asUnit
  | .BitsPerSample, v => v.into_u16_vec.asUnit
  | .Compression, v => v.into_u16.unwrapR.asUnit
  | .PhotometricInterpretation, v => v.into_u16.unwrapR.asUnit
  | .ImageDescription, v => v.into_string.asUnit
  | .StripOffsets, v => v.into_u32_vec.asUnit
  | .Orientation, v => v.into_u16.unwrapR.asUnit
  | .SamplesPerPixel, v => v.into_u16.unwrapR.asUnit
  | .RowsPerStrip, v => v.into_u32.asUnit
  | .StripByteCounts, v => v.into_u32_vec.asUnit
  | .MinSampleValue, v => v.into_u16_vec.asUnit
  | .MaxSampleValue, v => v.into_u16_vec.asUnit
  | .XResolution, v => match v with | .rational _ _ => .ok () | _ => .panicked
  | .YResolution, v => match v with | .rational _ _ => .ok () | _ => .panicked
  | .PlanarConfiguration, v => v.into_u16.unwrapR.asUnit
  | .ResolutionUnit, v => v.into_u16.unwrapR.asUnit
  | .Software, v => v.into_string.asUnit
  | .DateTime, v => v.into_string.asUnit
  | .Artist, v => v.into_string.asUnit
  | .HostComputer, v => v.into_string.asUnit
  | .Predictor, v => v.into_u16.unwrapR.asUnit
  | .ColorMap, v => v.into_u16_vec.asUnit
  | .TileWidth, v => v.into_u32.asUnit
  | .TileLength, v => v.into_u32.asUnit
  | .TileOffsets, v => v.into_u32_vec.asUnit
  | .TileByteCounts, v => v.into_u32_vec.asUnit
  | .ExtraSamples, v => v.into_u8_vec.asUnit
  | .SampleFormat, v => v.into_u16_vec.asUnit
  | .JPEGTables, v => v.into_u8_vec.asUnit
  | .Copyright, v => v.into_string.asUnit
  | .GeoKeyDirectoryTag, v => v.into_u16_vec.asUnit
  | .ModelPixelScaleTag, v => v.into_f64_vec.asUnit
  | .ModelTiepointTag, v => v.into_f64_vec.asUnit
  | .GeoAsciiParamsTag, v => v.into_string.asUnit
  | .GeoDoubleParamsTag, v => v.into_f64_vec.asUnit
  | .unknown code, v => if code = 269 then v.into_string.asUnit else .ok ()

/-- Net outcome of the whole drain loop.  `HashMap::drain` order is
unspecified; when entries with an `err` outcome and entries with a
`panicked` outcome coexist the surfaced failure depends on that order, and
the model resolves it in favour of `err` (see the header commentary). -/
def drainOutcome (m : TagMap) : DecodeResult Unit :=
  if m.any (fun p => (tagEntryOutcome p.1 p.2).isErr) then .err
  else if m.any (fun p => (tagEntryOutcome p.1 p.2).isPanicked) then .panicked
  else .ok ()

/-- Present-and-converted `u32` value of tag `t`, if any. -/
def tagU32 (m : TagMap) (t : Tag) : Option Nat :=
  (lookupTag m t).bind (fun v => v.into_u32.toOption)

/-- Present-and-converted `u16` value of tag `t`, if any. -/
def tagU16 (m : TagMap) (t : Tag) : Option Nat :=
  (lookupTag m t).bind (fun v => v.into_u16.toOption)

/-- Present-and-converted `Vec<u16>` value of tag `t`, if any. -/
def tagU16Vec (m : TagMap) (t : Tag) : Option (List Nat) :=
  (lookupTag m t).bind (fun v => v.into_u16_vec.toOption)

/-- Present-and-converted `Vec<u32>` value of tag `t`, if any. -/
def tagU32Vec (m : TagMap) (t : Tag) : Option (List Nat) :=
  (lookupTag m t).bind (fun v => v.into_u32_vec.toOption)

/-- Present-and-converted `Vec<u8>` value of tag `t`, if any. -/
def tagU8Vec (m : TagMap) (t : Tag) : Option (List Nat) :=
  (lookupTag m t).bind (fun v => v.into_u8_vec.toOption)

/-- Present-and-converted `Vec<f64>` value of tag `t`, if any. -/
def tagF64Vec (m : TagMap) (t : Tag) : Option (List Rat) :=
  (lookupTag m t).bind (fun v => v.into_f64_vec.toOption)

/-- Present-and-converted string value of tag `t`, if any. -/
def tagStr (m : TagMap) (t : Tag) : Option String :=
  (lookupTag m t).bind (fun v => v.into_string.toOption)

/-- Present rational tag value as `n as f64 / d as f64`; the quotient is
modelled exactly (no claim below depends on its rounding). -/
def tagRational (m : TagMap) (t : Tag) : Option Rat :=
  (lookupTag m t).bind (fun v =>
    match v with
    | .rational n d => some ((n : Rat) / (d : Rat))
    | _ => none)

/-- Whether `from_tags` has a dedicated arm for tag `t` (everything else
lands in `other_tags`). -/
def tagRecognized : Tag → Bool
  | .unknown code => code = 269
  | _ => true

/-- `data.chunks(4)` on the GeoKey directory shorts: groups of four, the
last group possibly shorter. -/
def chunk4 : List Nat → List (List Nat)
  | [] => []
  | a :: rest => (a :: rest.take 3) :: chunk4 (rest.drop 3)
termination_by l => l.length
decreasing_by
  simp only [List.length_drop, List.length_cons]
  omega

/-- `tags.insert(k, v)` on the GeoKey map (`HashMap` semantics: a repeated
key overwrites the earlier entry). -/
def insertGeoKey (m : GeoKeyMap) (k : GeoKeyTag) (v : Value) : GeoKeyMap :=
  (k, v) :: m.filter (fun p => ¬ p.1 = k)

/-- `&s[off..off+cnt]` on the GeoAscii side blob, `None` when the range is
out of bounds (a Rust slicing panic).  Byte indices are modelled as char
indices, exact for the 7-bit data GeoTIFF stores there. -/
def asciiSub (s : String) (off cnt : Nat) : Option String :=
  if off + cnt ≤ s.toList.length then
    some (String.mk ((s.toList.drop off).take cnt))
  else none

/-- Strip one trailing `|` separator, as the GeoAscii branch of
`from_tags` does. -/
def stripTrailingSep (s : String) : String :=
  if s.toList.getLast? = some '|' then String.mk s.toList.dropLast else s

/-- The per-key loop of the GeoKeyDirectory block in
`ImageFileDirectory::from_tags` (`src/ifd.rs`): consume one 4-short chunk
per key; location 0 stores the short itself, location 34737
(`GeoAsciiParamsTag`) slices the ASCII side blob (stripping a trailing
separator), location 34736 (`GeoDoubleParamsTag`) takes one double or a
slice of doubles, and any other location stores nothing.  `unwrap()`s on a
missing chunk, a short chunk, an unknown key id, a missing side table or an
out-of-bounds slice all panic. -/
def geoKeyRecords (geo_ascii : Option String) (geo_double : Option (List Rat)) :
    Nat → List (List Nat) → GeoKeyMap → DecodeResult GeoKeyMap
  | 0, _, acc => .ok acc
  | n + 1, chunks, acc =>
    match chunks with
    | [] => .panicked
    | chunk :: rest =>
      match chunk.get? 0 with
      | none => .panicked
      | some key_id =>
        match GeoKeyTag.try_from_primitive key_id with
        | none => .panicked
        | some tag_name =>
          match chunk.get? 1, chunk.get? 2, chunk.get? 3 with
          | some tag_location, some count, some value_offset =>
            if tag_location = 0 then
              geoKeyRecords geo_ascii geo_double n rest
                (insertGeoKey acc tag_name (.short value_offset))
            else if tag_location = 34737 then
              match geo_ascii with
              | none => .panicked
              | some s =>
                match asciiSub s value_offset count with
                | none => .panicked
                | some sub =>
                  geoKeyRecords geo_ascii geo_double n rest
                    (insertGeoKey acc tag_name (.ascii (stripTrailingSep sub)))
            else if tag_location = 34736 then
              match geo_double with
              | none => .panicked
              | some gd =>
                if count = 1 then
                  match gd.get? value_offset with
                  | none => .panicked
                  | some x =>
                    geoKeyRecords geo_ascii geo_double n rest
                      (insertGeoKey acc tag_name (.double x))
                else
                  if value_offset + count ≤ gd.length then
                    geoKeyRecords geo_ascii geo_double n rest
                      (insertGeoKey acc tag_name
                        (.list (((gd.drop value_offset).take count).map Value.double)))
                  else .panicked
            else
              geoKeyRecords geo_ascii geo_double n rest acc
          | _, _, _ => .panicked

/-- The GeoKeyDirectory block of `ImageFileDirectory::from_tags`: split the
shorts into 4-chunks, check the version/revision header asserts, run the
per-key loop and hand the resulting map to `GeoKeyDirectory::from_tags`. -/
def parseGeoKeyDirectoryData (data : List Nat) (geo_ascii : Option String)
    (geo_double : Option (List Rat)) : DecodeResult GeoKeyDirectory :=
  match chunk4 data with
  | [] => .panicked
  | header :: rest =>
    match header.get? 0 with
    | none => .panicked
    | some key_directory_version =>
      if key_directory_version ≠ 1 then .panicked
      else
        match header.get? 1 with
        | none => .panicked
        | some key_revision =>
          if key_revision ≠ 1 then .panicked
          else
            match header.get? 3 with
            | none => .panicked
            | some number_of_keys =>
              (geoKeyRecords geo_ascii geo_double number_of_keys rest []).bind
                GeoKeyDirectory.from_tags

/-- `ImageFileDirectory::from_tags` from `src/ifd.rs`.  The drain loop
converts each recognised tag into its slot (see `tagEntryOutcome`), the
GeoKey block is parsed afterwards (it needs `GeoAsciiParamsTag` /
`GeoDoubleParamsTag` already decoded), and the final struct literal
`unwrap()`s every required field, panicking when one is absent (or, for
`PhotometricInterpretation`/`PlanarConfiguration`, decoded `from_u16` to
`None`).  Because map keys are unique and every arm writes a distinct
variable, the drain loop is equivalent to per-tag lookups, which is how the
field values are written here.  `geoKeyStep` is the GeoKey block: absent
tag means no directory, otherwise the block parse must succeed. -/
def geoKeyStep (m : TagMap) : DecodeResult (Option GeoKeyDirectory) :=
  match tagU16Vec m .GeoKeyDirectoryTag with
  | none => .ok none
  | some data =>
    (parseGeoKeyDirectoryData data (tagStr m .GeoAsciiParamsTag)
      (tagF64Vec m .GeoDoubleParamsTag)).map some

def ImageFileDirectory.from_tags (m : TagMap) (next_ifd_offset : Option Nat) :
    DecodeResult ImageFileDirectory := do
  let _ ← drainOutcome m
  let geo_key_directory ← geoKeyStep m
  let image_width ← unwrapO (tagU32 m .ImageWidth)
  let image_height ← unwrapO (tagU32 m .ImageLength)
  let bits_per_sample ← unwrapO (tagU16Vec m .BitsPerSample)
  let compression ← unwrapO ((tagU16 m .Compression).map CompressionMethodT.from_u16_exhaustive)
  let photometric_interpretation ←
    unwrapO ((tagU16 m .PhotometricInterpretation).bind PhotometricInterpretationT.from_u16)
  let samples_per_pixel ← unwrapO (tagU16 m .SamplesPerPixel)
  let planar_configuration ←
    unwrapO ((tagU16 m .PlanarConfiguration).bind PlanarConfigurationT.from_u16)
  let tile_width ← unwrapO (tagU32 m .TileWidth)
  let tile_height ← unwrapO (tagU32 m .TileLength)
  let tile_offsets ← unwrapO (tagU32Vec m .TileOffsets)
  let tile_byte_counts ← unwrapO (tagU32Vec m .TileByteCounts)
  let sample_format ←
    unwrapO ((tagU16Vec m .SampleFormat).map (List.map SampleFormatT.from_u16_exhaustive))
  .ok {
    new_subfile_type := tagU32 m .NewSubfileType
    image_width := image_width
    image_height := image_height
    bits_per_sample := bits_per_sample
    compression := compression
    photometric_interpretation := photometric_interpretation
    document_name := (lookupTag m (.unknown 269)).bind (fun v => v.into_string.toOption)
    image_description := tagStr m .ImageDescription
    strip_offsets := tagU32Vec m .StripOffsets
    orientation := tagU16 m .Orientation
    samples_per_pixel := samples_per_pixel
    rows_per_strip := tagU32 m .RowsPerStrip
    strip_byte_counts := tagU32Vec m .StripByteCounts
    min_sample_value := tagU16Vec m .MinSampleValue
    max_sample_value := tagU16Vec m .MaxSampleValue
    x_resolution := tagRational m .XResolution
    y_resolution := tagRational m .YResolution
    planar_configuration := planar_configuration
    resolution_unit := (tagU16 m .ResolutionUnit).bind ResolutionUnitT.from_u16
    software := tagStr m .Software
    date_time := tagStr m .DateTime
    artist := tagStr m .Artist
    host_computer := tagStr m .HostComputer
    predictor := (tagU16 m .Predictor).bind PredictorT.from_u16
    color_map := tagU16Vec m .ColorMap
    tile_width := tile_width
    tile_height := tile_height
    tile_offsets := tile_offsets
    tile_byte_counts := tile_byte_counts
    extra_samples := tagU8Vec m .ExtraSamples
    sample_format := sample_format
    jpeg_tables := tagU8Vec m .JPEGTables
    copyright := tagStr m .Copyright
    geo_key_directory := geo_key_directory
    model_pixel_scale := tagF64Vec m .ModelPixelScaleTag
    model_tiepoint := tagF64Vec m .ModelTiepointTag
    other_tags := m.filter (fun p => ¬ tagRecognized p.1)
    next_ifd_offset := next_ifd_offset
  }

/-- `ImageFileDirectories::open` from `src/ifd.rs`, as a fuelled loop.  The
body of `while let Some(offset) = next_ifd_offset` reads the IFD at
`offset`, pushes it, and continues at its next-IFD offset.  Each node read
first seeks to its own offset, so the outcome of `ImageFileDirectory::read`
is a function `readAt` of the offset alone (the remote object is fixed);
the loop itself has no cycle guard, so it is modelled with explicit fuel:
`none` means the loop has not finished within `fuel` iterations. -/
def ImageFileDirectories.openFuel (readAt : Nat → DecodeResult ImageFileDirectory) :
    Nat → Option Nat → List ImageFileDirectory → Option (DecodeResult (List ImageFileDirectory))
  | _, none, ifds => some (.ok ifds)
  | 0, some _, _ => none
  | fuel + 1, some offset, ifds =>
    match readAt offset with
    | .ok ifd => ImageFileDirectories.openFuel readAt fuel ifd.next_ifd_offset (ifds ++ [ifd])
    | .err => some .err
    | .panicked => some .panicked

/-- The walk starting at `start` terminates: some finite number of loop
iterations produces an outcome (a directory list, an error or a panic). -/
def ImageFileDirectories.openTerminates (readAt : Nat → DecodeResult ImageFileDirectory)
    (start : Nat) : Prop :=
  ∃ fuel r, ImageFileDirectories.openFuel readAt fuel (some start) [] = some r

/-- A well-formed on-disk directory chain: `nodes` lists the chain's
(offset, decoded directory) pairs in order, each node's next-IFD offset
pointing at the next node's offset and the last node's next-IFD offset
being absent (a zero next-offset word). -/
inductive IsIFDChain (readAt : Nat → DecodeResult ImageFileDirectory) :
    Nat → List (Nat × ImageFileDirectory) → Prop where
  | last (off : Nat) (ifd : ImageFileDirectory)
      (hread : readAt off = .ok ifd) (hnext : ifd.next_ifd_offset = none) :
      IsIFDChain readAt off [(off, ifd)]
  | cons (off off2 : Nat) (ifd : ImageFileDirectory) (rest : List (Nat × ImageFileDirectory))
      (hread : readAt off = .ok ifd) (hnext : ifd.next_ifd_offset = some off2)
      (hrest : IsIFDChain readAt off2 rest) :
      IsIFDChain readAt off ((off, ifd) :: rest)

/-- A minimal decoded directory used as a test fixture: a 32x32 image in
16x16 tiles (a 2x2 tile grid), with the four tile byte ranges
`[100,10] [200,20] [300,30] [400,40]` in row-major order. -/
def mkTestIFD (next : Option Nat) : ImageFileDirectory := {
  new_subfile_type := none
  image_width := 32
  image_height := 32
  bits_per_sample := [8]
  compression := 1
  photometric_interpretation := .BlackIsZero
  document_name := none
  image_description := none
  strip_offsets := none
  orientation := none
  samples_per_pixel := 1
  rows_per_strip := none
  strip_byte_counts := none
  min_sample_value := none
  max_sample_value := none
  x_resolution := none
  y_resolution := none
  planar_configuration := .Chunky
  resolution_unit := none
  software := none
  date_time := none
  artist := none
  host_computer := none
  predictor := none
  color_map := none
  tile_width := 16
  tile_height := 16
  tile_offsets := [100, 200, 300, 400]
  tile_byte_counts := [10, 20, 30, 40]
  extra_samples := none
  sample_format := [1]
  jpeg_tables := none
  copyright := none
  geo_key_directory := none
  model_pixel_scale := none
  model_tiepoint := none
  other_tags := []
  next_ifd_offset := next }

/-- Fixture for the tile-addressing claims: the 2x2-tile directory. -/
def ifd2x2 : ImageFileDirectory := mkTestIFD none

/-- Fixture for the geotransform claims: a 100x100 image with
`ModelPixelScale=[10,10,0]` and `ModelTiepoint=[0,0,0,500000,4000000,0]`. -/
def ifdGeo : ImageFileDirectory :=
  { mkTestIFD none with
    image_width := 100
    image_height := 100
    model_pixel_scale := some [10, 10, 0]
    model_tiepoint := some [0, 0, 0, 500000, 4000000, 0] }

/-- A tag map with every required tag present and well-typed, describing a
100x100 image in 16x16 tiles (a 7x7 tile grid) whose `TileOffsets` and
`TileByteCounts` tags hold a single entry each. -/
def tagMapOneTile : TagMap := [
  (.ImageWidth, .short 100),
  (.ImageLength, .short 100),
  (.BitsPerSample, .list [.short 8]),
  (.Compression, .short 1),
  (.PhotometricInterpretation, .short 1),
  (.SamplesPerPixel, .short 1),
  (.PlanarConfiguration, .short 1),
  (.TileWidth, .short 16),
  (.TileLength, .short 16),
  (.TileOffsets, .list [.unsigned 1000]),
  (.TileByteCounts, .list [.unsigned 10]),
  (.SampleFormat, .list [.short 1])]

/-- `tagMapOneTile` with `NewSubfileType = 1` (bit 0, the TIFF
reduced-resolution-overview bit, set). -/
def tagMapOverview : TagMap := (Tag.NewSubfileType, Value.short 1) :: tagMapOneTile

/-- `tagMapOneTile` with `NewSubfileType = 0` (an explicitly marked
full-resolution primary image). -/
def tagMapPrimary : TagMap := (Tag.NewSubfileType, Value.short 0) :: tagMapOneTile

/-- Drop one tag from a tag map (to build required-tag-missing inputs). -/
def removeTag (m : TagMap) (t : Tag) : TagMap :=
  m.filter (fun p => ¬ p.1 = t)

/-- The decoded directory, when `from_tags` succeeds. -/
def decodeOk (m : TagMap) : Option ImageFileDirectory :=
  (ImageFileDirectory.from_tags m none).toOption

/-- The claimed decoder invariant, as a boolean: both tile vectors have
length `ceil(width/tile_width) * ceil(height/tile_height)`. -/
def tileLengthInvariant (d : ImageFileDirectory) : Bool :=
  d.tile_offsets.length == d.tile_byte_counts.length
    && d.tile_offsets.length == d.tile_count.1 * d.tile_count.2

/-- One remote-cursor action of `ObjectStoreCursor` (`src/cursor.rs`):
`readEvt pos len` is a `get_range(pos..pos+len)` fetch issued by `read`,
`seekEvt pos` is a `seek(pos)` repositioning (no fetch). -/
inductive CEvent where
  | readEvt (pos len : Nat)
  | seekEvt (pos : Nat)
deriving DecidableEq, Repr

/-- `ObjectStoreCursor` from `src/cursor.rs`: the remote object is the byte
function `buf`, `pos` is the current logical offset, and `log` records every
read and seek in order.  The cursor's endianness is `LittleEndian` by
default and `set_endianness` is never called on the paths modelled here. -/
structure Cursor where
  buf : Nat → Nat
  pos : Nat
  log : List CEvent

/-- The `len` bytes of the remote object starting at `p`. -/
def bytesAt (buf : Nat → Nat) (p len : Nat) : List Nat :=
  (List.range len).map (fun i => buf (p + i) % 256)

/-- `ObjectStoreCursor::read`: fetch `[pos, pos+length)` and advance. -/
def Cursor.read (c : Cursor) (length : Nat) : List Nat × Cursor :=
  (bytesAt c.buf c.pos length,
   { c with pos := c.pos + length, log := c.log ++ [.readEvt c.pos length] })

/-- `ObjectStoreCursor::seek`: set the absolute offset (no fetch). -/
def Cursor.seek (c : Cursor) (offset : Nat) : Cursor :=
  { c with pos := offset, log := c.log ++ [.seekEvt offset] }

/-- `ObjectStoreCursor::advance`: relative skip (no fetch, no log entry). -/
def Cursor.advance (c : Cursor) (amount : Nat) : Cursor :=
  { c with pos := c.pos + amount }

/-- Little-endian value of a byte list (least significant byte first). -/
def leVal : List Nat → Nat
  | [] => 0
  | b :: rest => b + 256 * leVal rest

/-- Two's-complement reinterpretation of a `bits`-wide unsigned value. -/
def toSigned (bits v : Nat) : Int :=
  if v < 2 ^ (bits - 1) then (v : Int) else (v : Int) - 2 ^ bits

/-- The little-endian `u32` stored at offset `p` of the remote object. -/
def u32At (buf : Nat → Nat) (p : Nat) : Nat := leVal (bytesAt buf p 4)

/-- `read_u16` (little-endian, the cursor's default). -/
def Cursor.readU16 (c : Cursor) : Nat × Cursor :=
  let (bs, c1) := c.read 2
  (leVal bs, c1)

/-- `read_u32`. -/
def Cursor.readU32 (c : Cursor) : Nat × Cursor :=
  let (bs, c1) := c.read 4
  (leVal bs, c1)

/-- `read_u64`. -/
def Cursor.readU64 (c : Cursor) : Nat × Cursor :=
  let (bs, c1) := c.read 8
  (leVal bs, c1)

/-- `read_i64`. -/
def Cursor.readI64 (c : Cursor) : Int × Cursor :=
  let (bs, c1) := c.read 8
  (toSigned 64 (leVal bs), c1)

/-- `read_i32`. -/
def Cursor.readI32 (c : Cursor) : Int × Cursor :=
  let (bs, c1) := c.read 4
  (toSigned 32 (leVal bs), c1)

/-- Exact rational value of an IEEE binary32 bit pattern.  `Inf`/`NaN`
(exponent 255) have no rational value and are mapped to 0; no claim below
evaluates a float, only the read traces matter. -/
def decodeF32 (bits : Nat) : Rat :=
  let b : Nat := bits % 2 ^ 32
  let sign : Nat := b / 2 ^ 31
  let expo : Nat := (b / 2 ^ 23) % 2 ^ 8
  let frac : Nat := b % 2 ^ 23
  let mag : Rat :=
    if expo = 255 then 0
    else if expo = 0 then (frac : Rat) * (2 : Rat) ^ (-(149 : Int))
    else ((2 ^ 23 + frac : Nat) : Rat) * (2 : Rat) ^ ((expo : Int) - 150)
  if sign = 1 then -mag else mag

/-- Exact rational value of an IEEE binary64 bit pattern (`Inf`/`NaN`
mapped to 0, as in `decodeF32`). -/
def decodeF64 (bits : Nat) : Rat :=
  let b : Nat := bits % 2 ^ 64
  let sign : Nat := b / 2 ^ 63
  let expo : Nat := (b / 2 ^ 52) % 2 ^ 11
  let frac : Nat := b % 2 ^ 52
  let mag : Rat :=
    if expo = 2047 then 0
    else if expo = 0 then (frac : Rat) * (2 : Rat) ^ (-(1074 : Int))
    else ((2 ^ 52 + frac : Nat) : Rat) * (2 : Rat) ^ ((expo : Int) - 1075)
  if sign = 1 then -mag else mag

/-- `read_f32` (value decoded from the bit pattern). -/
def Cursor.readF32 (c : Cursor) : Rat × Cursor :=
  let (bs, c1) := c.read 4
  (decodeF32 (leVal bs), c1)

/-- `read_f64`. -/
def Cursor.readF64 (c : Cursor) : Rat × Cursor :=
  let (bs, c1) := c.read 8
  (decodeF64 (leVal bs), c1)

/-- `tiff::tags::Type`: the 16 on-disk TIFF value types. -/
inductive TagType where
  | BYTE
  | ASCII
  | SHORT
  | LONG
  | RATIONAL
  | SBYTE
  | UNDEFINED
  | SSHORT
  | SLONG
  | SRATIONAL
  | FLOAT
  | DOUBLE
  | IFD
  | LONG8
  | SLONG8
  | IFD8
deriving DecidableEq, Repr

/-- `Type::from_u16` (codes 1-13 and 16-18). -/
def TagType.from_u16 : Nat → Option TagType
  | 1 => some .BYTE
  | 2 => some .ASCII
  | 3 => some .SHORT
  | 4 => some .LONG
  | 5 => some .RATIONAL
  | 6 => some .SBYTE
  | 7 => some .UNDEFINED
  | 8 => some .SSHORT
  | 9 => some .SLONG
  | 10 => some .SRATIONAL
  | 11 => some .FLOAT
  | 12 => some .DOUBLE
  | 13 => some .IFD
  | 16 => some .LONG8
  | 17 => some .SLONG8
  | 18 => some .IFD8
  | _ => none

/-- The `tag_size` match at the top of `read_tag_value` (`src/ifd.rs`): the
byte width of each type.  The match there lists all 16 types, so its
trailing `panic!` arm is dead and the function is total. -/
def TagType.tagSize : TagType → Nat
  | .BYTE | .SBYTE | .ASCII | .UNDEFINED => 1
  | .SHORT | .SSHORT => 2
  | .LONG | .SLONG | .FLOAT | .IFD => 4
  | .LONG8 | .SLONG8 | .DOUBLE | .RATIONAL | .SRATIONAL | .IFD8 => 8

/-- Sequential scalar parsing from an in-memory buffer (the
`data.reader()` loops of case 3 in `read_tag_value`): `none` when the
buffer runs out mid-value (a `byteorder` EOF error). -/
def parseScalars : List Nat → Nat → Nat → Option (List Nat)
  | _, _, 0 => some []
  | data, width, n + 1 =>
    if width ≤ data.length then
      (parseScalars (data.drop width) width n).map (fun rest => leVal (data.take width) :: rest)
    else none

/-- `trim_matches(char::from(0))` over raw ASCII bytes, then the bytes as a
string (what case 3's ASCII arm produces after `from_utf8`). -/
def asciiTrimNulls (bytes : List Nat) : String :=
  String.mk ((((bytes.dropWhile (fun b => b = 0)).reverse.dropWhile
    (fun b => b = 0)).reverse).map Char.ofNat)

/-- `Vec::truncate` at the first NUL byte (case 4's ASCII arm). -/
def truncAtNul (bytes : List Nat) : List Nat :=
  bytes.takeWhile (fun b => b ≠ 0)

/-- UTF-8 validation/decoding of a byte list (`String::from_utf8`):
rejects stray continuation bytes, overlong encodings, surrogates and
out-of-range code points. -/
def utf8Decode : List Nat → Option (List Char)
  | [] => some []
  | b :: rest =>
    if b < 128 then
      (utf8Decode rest).map (fun cs => Char.ofNat b :: cs)
    else if b < 194 then none
    else if b < 224 then
      match rest with
      | c1 :: rest2 =>
        if 128 ≤ c1 ∧ c1 < 192 then
          (utf8Decode rest2).map (fun cs => Char.ofNat ((b - 192) * 64 + (c1 - 128)) :: cs)
        else none
      | [] => none
    else if b < 240 then
      match rest with
      | c1 :: c2 :: rest3 =>
        if (128 ≤ c1 ∧ c1 < 192) ∧ (128 ≤ c2 ∧ c2 < 192) then
          let cp := (b - 224) * 4096 + (c1 - 128) * 64 + (c2 - 128)
          if 2048 ≤ cp ∧ ¬ (55296 ≤ cp ∧ cp ≤ 57343) then
            (utf8Decode rest3).map (fun cs => Char.ofNat cp :: cs)
          else none
        else none
      | _ => none
    else if b < 245 then
      match rest with
      | c1 :: c2 :: c3 :: rest4 =>
        if (128 ≤ c1 ∧ c1 < 192) ∧ (128 ≤ c2 ∧ c2 < 192) ∧ (128 ≤ c3 ∧ c3 < 192) then
          let cp := (b - 240) * 262144 + (c1 - 128) * 4096 + (c2 - 128) * 64 + (c3 - 128)
          if 65536 ≤ cp ∧ cp ≤ 1114111 then
            (utf8Decode rest4).map (fun cs => Char.ofNat cp :: cs)
          else none
        else none
      | _ => none
    else none
termination_by l => l.length
decreasing_by
  all_goals simp only [List.length_cons]
  all_goals omega

/-- The element-reading loop of case 4 in `read_tag_value`: `n` scalar
reads of `width` bytes each, returning the little-endian raw values. -/
def readScalarLoop (width : Nat) : Nat → Cursor → List Nat × Cursor
  | 0, c => ([], c)
  | n + 1, c =>
    let (bs, c1) := c.read width
    let (vs, c2) := readScalarLoop width n c1
    (leVal bs :: vs, c2)

/-- The rational-reading loop of case 4: `n` element reads, each two
4-byte reads (numerator then denominator). -/
def readRationalLoop : Nat → Cursor → List (Nat × Nat) × Cursor
  | 0, c => ([], c)
  | n + 1, c =>
    let (a, c1) := c.readU32
    let (b, c2) := c1.readU32
    let (ps, c3) := readRationalLoop n c2
    ((a, b) :: ps, c3)

/-- `read_tag_value` from `src/ifd.rs` (derived there from the upstream
tiff crate): decode one tag's value given its type and element count,
choosing among the four on-disk layouts.

* Case 1 (`count == 0`): empty list, no I/O.
* Case 2 (`count == 1`): read `count * tag_size` bytes at the cursor (note:
  for 8-byte types this reads 8 bytes even though only the first 4 — the
  offset word — are used, mirroring the NOTE in the source); 8-byte types
  then seek to that offset and fetch the value from there.
* Case 3 (`count >= 2`, `value_byte_length <= 4`): parse the elements out
  of the inline field, then `advance` over the unused padding; the 8-byte
  type arms are `unreachable!()` (they panic), and a short inline buffer
  surfaces as a `byteorder` error (`err`) except in the `u8`-flavoured
  arms, whose `.unwrap()` panics.
* Case 4 (otherwise): read the 4-byte offset, seek there, and read `count`
  elements sequentially.

ASCII handling: case 2 accepts only a lone NUL (else `panic!`); case 3
requires a NUL-terminated pure-ASCII buffer (else `panic!`) and trims NULs
from both ends; case 4 truncates at the first NUL and UTF-8-validates
(failure is an error, via `?`). -/
def read_tag_value (cursor : Cursor) (tag_type : TagType) (count : Nat) :
    DecodeResult (Value × Cursor) :=
  if count = 0 then .ok (.list [], cursor)
  else
    let tag_size := tag_type.tagSize
    let value_byte_length := count * tag_size
    if count = 1 then
      let (data, c1) := cursor.read value_byte_length
      match tag_type with
      | .BYTE | .UNDEFINED => .ok (.byte (leVal (data.take 1)), c1)
      | .SBYTE => .ok (.signed (toSigned 8 (leVal (data.take 1))), c1)
      | .SHORT => .ok (.short (leVal (data.take 2)), c1)
      | .SSHORT => .ok (.signed (toSigned 16 (leVal (data.take 2))), c1)
      | .LONG => .ok (.unsigned (leVal (data.take 4)), c1)
      | .SLONG => .ok (.signed (toSigned 32 (leVal (data.take 4))), c1)
      | .FLOAT => .ok (.float (decodeF32 (leVal (data.take 4))), c1)
      | .ASCII => if data.headD 0 = 0 then .ok (.ascii "", c1) else .panicked
      | .IFD => .ok (.ifd (leVal (data.take 4)), c1)
      | .LONG8 =>
        let c2 := c1.seek (leVal (data.take 4))
        let (v, c3) := c2.readU64
        .ok (.unsignedBig v, c3)
      | .SLONG8 =>
        let c2 := c1.seek (leVal (data.take 4))
        let (v, c3) := c2.readI64
        .ok (.signedBig v, c3)
      | .DOUBLE =>
        let c2 := c1.seek (leVal (data.take 4))
        let (v, c3) := c2.readF64
        .ok (.double v, c3)
      | .RATIONAL =>
        let c2 := c1.seek (leVal (data.take 4))
        let (numerator, c3) := c2.readU32
        let (denominator, c4) := c3.readU32
        .ok (.rational numerator denominator, c4)
      | .SRATIONAL =>
        let c2 := c1.seek (leVal (data.take 4))
        let (numerator, c3) := c2.readI32
        let (denominator, c4) := c3.readI32
        .ok (.srational numerator denominator, c4)
      | .IFD8 =>
        let c2 := c1.seek (leVal (data.take 4))
        let (v, c3) := c2.readU64
        .ok (.ifdBig v, c3)
    else if value_byte_length ≤ 4 then
      let (data, c1) := cursor.read value_byte_length
      let c2 := c1.advance (4 - value_byte_length)
      match tag_type with
      | .BYTE | .UNDEFINED =>
        match parseScalars data 1 count with
        | some vs => .ok (.list (vs.map Value.byte), c2)
        | none => .panicked
      | .SBYTE =>
        match parseScalars data 1 count with
        | some vs => .ok (.list (vs.map (fun b => Value.signed (toSigned 8 b))), c2)
        | none => .panicked
      | .ASCII =>
        if data.all (fun b => b < 128) && data.getLast? = some 0 then
          .ok (.ascii (asciiTrimNulls data), c2)
        else .panicked
      | .SHORT =>
        match parseScalars data 2 count with
        | some vs => .ok (.list (vs.map Value.short), c2)
        | none => .err
      | .SSHORT =>
        match parseScalars data 2 count with
        | some vs => .ok (.list (vs.map (fun b => Value.signed (toSigned 16 b))), c2)
        | none => .err
      | .LONG =>
        match parseScalars data 4 count with
        | some vs => .ok (.list (vs.map Value.unsigned), c2)
        | none => .err
      | .SLONG =>
        match parseScalars data 4 count with
        | some vs => .ok (.list (vs.map (fun b => Value.signed (toSigned 32 b))), c2)
        | none => .err
      | .FLOAT =>
        match parseScalars data 4 count with
        | some vs => .ok (.list (vs.map (fun b => Value.float (decodeF32 b))), c2)
        | none => .err
      | .IFD =>
        match parseScalars data 4 count with
        | some vs => .ok (.list (vs.map Value.ifd), c2)
        | none => .err
      | .LONG8 | .SLONG8 | .RATIONAL | .SRATIONAL | .DOUBLE | .IFD8 => .panicked
    else
      let (offset_bytes, c1) := cursor.read 4
      let offset := leVal offset_bytes
      let c2 := c1.seek offset
      match tag_type with
      | .BYTE | .UNDEFINED =>
        let r := readScalarLoop 1 count c2
        .ok (.list (r.1.map Value.byte), r.2)
      | .SBYTE =>
        let r := readScalarLoop 1 count c2
        .ok (.list (r.1.map (fun b => Value.signed (toSigned 8 b))), r.2)
      | .SHORT =>
        let r := readScalarLoop 2 count c2
        .ok (.list (r.1.map Value.short), r.2)
      | .SSHORT =>
        let r := readScalarLoop 2 count c2
        .ok (.list (r.1.map (fun b => Value.signed (toSigned 16 b))), r.2)
      | .LONG =>
        let r := readScalarLoop 4 count c2
        .ok (.list (r.1.map Value.unsigned), r.2)
      | .SLONG =>
        let r := readScalarLoop 4 count c2
        .ok (.list (r.1.map (fun b => Value.signed (toSigned 32 b))), r.2)
      | .FLOAT =>
        let r := readScalarLoop 4 count c2
        .ok (.list (r.1.map (fun b => Value.float (decodeF32 b))), r.2)
      | .DOUBLE =>
        let r := readScalarLoop 8 count c2
        .ok (.list (r.1.map (fun b => Value.double (decodeF64 b))), r.2)
      | .RATIONAL =>
        let r := readRationalLoop count c2
        .ok (.list (r.1.map (fun p => Value.rational p.1 p.2)), r.2)
      | .SRATIONAL =>
        let r := readRationalLoop count c2
        .ok (.list (r.1.map (fun p => Value.srational (toSigned 32 p.1) (toSigned 32 p.2))), r.2)
      | .LONG8 =>
        let r := readScalarLoop 8 count c2
        .ok (.list (r.1.map Value.unsignedBig), r.2)
      | .SLONG8 =>
        let r := readScalarLoop 8 count c2
        .ok (.list (r.1.map (fun b => Value.signedBig (toSigned 64 b))), r.2)
      | .IFD =>
        let r := readScalarLoop 4 count c2
        .ok (.list (r.1.map Value.ifd), r.2)
      | .IFD8 =>
        let r := readScalarLoop 8 count c2
        .ok (.list (r.1.map Value.ifdBig), r.2)
      | .ASCII =>
        let r := c2.read count
        match utf8Decode (truncAtNul r.1) with
        | some cs => .ok (.ascii (String.mk cs), r.2)
        | none => .err

/-- `Tag::from_u16_exhaustive` restricted to the tags recognised by this
crate's decoder; every other code maps to `unknown`. -/
def tagFromU16 (code : Nat) : Tag :=
  match code with
  | 254 => .NewSubfileType
  | 256 => .ImageWidth
  | 257 => .ImageLength
  | 258 => .BitsPerSample
  | 259 => .Compression
  | 262 => .PhotometricInterpretation
  | 270 => .ImageDescription
  | 273 => .StripOffsets
  | 274 => .Orientation
  | 277 => .SamplesPerPixel
  | 278 => .RowsPerStrip
  | 279 => .StripByteCounts
  | 280 => .MinSampleValue
  | 281 => .MaxSampleValue
  | 282 => .XResolution
  | 283 => .YResolution
  | 284 => .PlanarConfiguration
  | 296 => .ResolutionUnit
  | 305 => .Software
  | 306 => .DateTime
  | 315 => .Artist
  | 316 => .HostComputer
  | 317 => .Predictor
  | 320 => .ColorMap
  | 322 => .TileWidth
  | 323 => .TileLength
  | 324 => .TileOffsets
  | 325 => .TileByteCounts
  | 338 => .ExtraSamples
  | 339 => .SampleFormat
  | 347 => .JPEGTables
  | 33432 => .Copyright
  | 33550 => .ModelPixelScaleTag
  | 33922 => .ModelTiepointTag
  | 34735 => .GeoKeyDirectoryTag
  | 34736 => .GeoDoubleParamsTag
  | 34737 => .GeoAsciiParamsTag
  | c => .unknown c

/-- `read_tag` from `src/ifd.rs`: read the 2-byte tag code, remember the
position, read the 2-byte type (`Type::from_u16(..).unwrap()` panics on an
unknown type code) and 4-byte count, decode the value with
`read_tag_value`, and restore the cursor to `position + 10` (the start of
the next 12-byte record). -/
def read_tag (cursor : Cursor) : DecodeResult ((Tag × Value) × Cursor) :=
  let (code, c1) := cursor.readU16
  let tag_name := tagFromU16 code
  let current_cursor_position := c1.pos
  let (type_code, c2) := c1.readU16
  match TagType.from_u16 type_code with
  | none => .panicked
  | some tag_type =>
    let (count, c3) := c2.readU32
    (read_tag_value c3 tag_type count).map
      (fun r => ((tag_name, r.1), r.2.seek (current_cursor_position + 10)))

/-- `AiocogeoError` from `src/error.rs`: the crate error enum has exactly
these five variants (`General`, `IOError`, `JPEGDecodingError`,
`ObjectStore`, `TIFFError`); there is no `UnsupportedFormat` variant. -/
inductive AiocogeoError where
  | general (msg : String)
  | ioErrorVariant
  | jpegDecodingError
  | objectStoreVariant
  | tiffErrorVariant
deriving DecidableEq, Repr

/-- The local `ImageFileDirectory::read` of `src/cog.rs` (the version
`COGReader::try_open` actually calls): seek to the node, read the `i16`
tag count, run the empty tag loop, seek past the 12-byte records, read the
4-byte next-IFD offset — and then call `is_masked_ifd()`, which is
`todo!()`, so every call panics after those reads.  The `i16 as usize`
cast sign-extends, modelled by reduction mod 2^64. -/
def cogIFDRead (c : Cursor) (offset : Nat) : DecodeResult Unit × List CEvent :=
  let c1 := c.seek offset
  let (tag_count_bytes, c2) := c1.read 2
  let tag_count := toSigned 16 (leVal tag_count_bytes)
  let c3 := c2.seek (offset + 12 * (tag_count % 2 ^ 64).toNat + 2)
  let (_, c4) := c3.read 4
  (.panicked, c4.log)

/-- `COGReader::try_open` from `src/cog.rs`, with the cursor's remote
trace as a second component.  The magic and version checks are
`assert_eq!` (a mismatch panics; nothing returns the error type), and on
success the walk of `cog.rs`'s local `ImageFileDirectories::open` starts
with `Some(first_ifd_location as usize)`, whose very first node read
panics in `is_masked_ifd()` (see `cogIFDRead`), so the loop never gets
past its first iteration. -/
def try_open (buf : Nat → Nat) : DecodeResult Unit × List CEvent :=
  let c0 : Cursor := { buf := buf, pos := 0, log := [] }
  let (magic_bytes, c1) := c0.read 2
  if magic_bytes ≠ [73, 73] then (.panicked, c1.log)
  else
    let (version_bytes, c2) := c1.read 2
    let version := toSigned 16 (leVal version_bytes)
    if version ≠ 42 then (.panicked, c2.log)
    else
      let (first_ifd_bytes, c3) := c2.read 4
      let first_ifd_location := toSigned 32 (leVal first_ifd_bytes)
      cogIFDRead c3 ((first_ifd_location % 2 ^ 64).toNat)

/-- The spec's description of `epsg_code` (§4.5), stated directly over the
GeoKey tag map: the projected-CRS key value when the `ProjectedType` key is
present, else the geographic-CRS key value, else no code.  This is the
spec-side definition that `GeoKeyDirectory.from_tags`-plus-`epsg_code` is
compared against. -/
def epsgSpecOfKeys (m : GeoKeyMap) : Option Nat :=
  match geoKeyU16 m .ProjectedType with
  | some code => some code
  | none => geoKeyU16 m .GeographicType

/-- A three-node on-disk chain: the node at offset 100 links to 200, 200
links to 300, 300 ends the chain; reads anywhere else fail. -/
def readAtChain3 : Nat → DecodeResult ImageFileDirectory := fun off =>
  if off = 100 then .ok (mkTestIFD (some 200))
  else if off = 200 then .ok (mkTestIFD (some 300))
  else if off = 300 then .ok (mkTestIFD none)
  else .err

/-- The directory `from_tags` decodes from `tagMapOneTile`. -/
def ifdOneTile : ImageFileDirectory :=
  { mkTestIFD none with
    image_width := 100
    image_height := 100
    tile_offsets := [1000]
    tile_byte_counts := [10] }

/-- A GeoKey tag map carrying both `ProjectedType = 32631` and
`GeographicType = 4326`. -/
def gkMapBoth : GeoKeyMap :=
  [(.ProjectedType, .short 32631), (.GeographicType, .short 4326)]

/-- The GeoKeyDirectory decoded from `gkMapBoth`. -/
def gkdBoth : GeoKeyDirectory := {
  model_type := none
  raster_type := none
  citation := none
  geographic_type := some 4326
  geog_citation := none
  geog_geodetic_datum := none
  geog_prime_meridian := none
  geog_linear_units := none
  geog_linear_unit_size := none
  geog_angular_units := none
  geog_angular_unit_size := none
  geog_ellipsoid := none
  geog_semi_major_axis := none
  geog_semi_minor_axis := none
  geog_inv_flattening := none
  geog_azimuth_units := none
  geog_prime_meridian_long := none
  projected_type := some 32631
  proj_citation := none
  projection_geo_key := none
  proj_coord_trans_geo_key := none
  proj_linear_units_geo_key := none
  proj_linear_unit_size_geo_key := none
  proj_std_parallel1_geo_key := none
  proj_std_parallel2_geo_key := none
  proj_nat_origin_long_geo_key := none
  proj_nat_origin_lat_geo_key := none
  proj_false_easting_geo_key := none
  proj_false_northing_geo_key := none
  proj_false_origin_long_geo_key := none
  proj_false_origin_lat_geo_key := none
  proj_false_origin_easting_geo_key := none
  proj_false_origin_northing_geo_key := none
  proj_center_long_geo_key := none
  proj_center_lat_geo_key := none
  proj_center_easting_geo_key := none
  proj_center_northing_geo_key := none
  proj_scale_at_nat_origin_geo_key := none
  proj_scale_at_center_geo_key := none
  proj_azimuth_angle_geo_key := none
  proj_straight_vert_pole_long_geo_key := none
  vertical_geo_key := none
  vertical_citation_geo_key := none
  vertical_datum_geo_key := none
  vertical_units_geo_key := none }

/-- A remote object whose header is `II` + version 43 (a BigTIFF-style
version word) + first-IFD offset 8; all other bytes are 0. -/
def bufBigTiff : Nat → Nat := fun n => [73, 73, 43, 0, 8, 0, 0, 0].getD n 0

/-- A remote object whose endianness magic is `MM` (big endian) with an
otherwise classic version word. -/
def bufBadMagic : Nat → Nat := fun n => [77, 77, 42, 0].getD n 0

/-- Event classifier for the inline-decoding property: a read entirely
inside `[lo, hi)`; seeks do not qualify, so a trace all of whose events
satisfy this performed no seek and no out-of-window fetch. -/
def eventWithin (lo hi : Nat) : CEvent → Bool
  | .readEvt p len => decide (lo ≤ p ∧ p + len ≤ hi)
  | .seekEvt _ => false

/-- If the events are reads laid end to end starting at `pos`, their total
byte length; `none` otherwise (a seek or a gap). -/
def contiguousReadTotal : Nat → List CEvent → Option Nat
  | _, [] => some 0
  | pos, .readEvt q len :: rest =>
    if q = pos then (contiguousReadTotal (pos + len) rest).map (fun t => len + t)
    else none
  | _, .seekEvt _ :: _ => none

/-- `n` contiguous read events of `width` bytes each, starting at `p`. -/
def readEvts (p width : Nat) : Nat → List CEvent
  | 0 => []
  | n + 1 => .readEvt p width :: readEvts (p + width) width n

/-- A fresh cursor over an all-zero remote object. -/
def cursorZero : Cursor := { buf := fun _ => 0, pos := 0, log := [] }

/-- The cursor state after decoding one inline single-SHORT tag value from
`cursorZero`: two bytes read at offset 0, no seek. -/
def cursorAfterShort : Cursor :=
  { buf := fun _ => 0, pos := 2, log := [CEvent.readEvt 0 2] }

theorem decodeBindEqOk {α β : Type} {a : DecodeResult α} {f : α → DecodeResult β} {b : β}
    (h : DecodeResult.bind a f = .ok b) : ∃ x, a = .ok x ∧ f x = .ok b := by
  cases a with
  | ok x => exact ⟨x, rfl, h⟩
  | err => simp [DecodeResult.bind] at h
  | panicked => simp [DecodeResult.bind] at h

theorem openFuel_selfloop (fuel : Nat) (acc : List ImageFileDirectory) :
    ImageFileDirectories.openFuel (fun _ => .ok (mkTestIFD (some 10))) fuel (some 10) acc = none := by
  induction fuel generalizing acc with
  | zero => rfl
  | succ n ih => simpa [ImageFileDirectories.openFuel, mkTestIFD] using ih _

theorem openFuel_chain (readAt : Nat → DecodeResult ImageFileDirectory) (start : Nat)
    (nodes : List (Nat × ImageFileDirectory)) (h : IsIFDChain readAt start nodes) :
    ∀ acc, ImageFileDirectories.openFuel readAt nodes.length (some start) acc =
      some (.ok (acc ++ nodes.map Prod.snd)) := by
  induction h with
  | last off ifd hread hnext =>
    intro acc
    simp [ImageFileDirectories.openFuel, hread, hnext]
  | cons off off2 ifd rest hread hnext hrest ih =>
    intro acc
    simp only [List.length_cons, ImageFileDirectories.openFuel, hread, hnext]
    rw [ih (acc ++ [ifd])]
    simp

/-- Claim C1 (code bug evidence).  The claim says `is_full_resolution()` is
false exactly when `NewSubfileType` is present with the reduced-resolution
bit (bit 0) set, and true when the tag is absent.  The code returns
`val != 0`, inverting the check (its own doc comment says it should be true
for the full-resolution image): a decoded directory with
`NewSubfileType = 1` (a reduced-resolution overview) reports `true`, and a
directory with an explicit `NewSubfileType = 0` (the primary full
resolution image) reports `false`. -/
theorem is_full_resolution_inverted :
    (decodeOk tagMapOverview).map ImageFileDirectory.is_full_resolution = some true ∧
    (decodeOk tagMapPrimary).map ImageFileDirectory.is_full_resolution = some false := by
  constructor
  · decide
  · decide

/-- Claim C2 (counterexample).  Opening a remote object whose header is
`II` with version word 43 does not return an `UnsupportedFormat` error
value (the crate error enum has no such variant, and the outcome is not an
`err` at all): `try_open` panics on the `assert_eq!(version, 42)`, having
read only the two header words. -/
theorem try_open_version_43_panics :
    try_open bufBigTiff = (.panicked, [CEvent.readEvt 0 2, CEvent.readEvt 2 2]) ∧
    (try_open bufBigTiff).1.isErr = false := by
  constructor
  · decide
  · decide

/-- Claim C2 (amended).  For every remote object, a bad endianness magic
makes `try_open` panic (assertion failure) after the single 2-byte magic
read, and a good magic with a version word other than 42 makes it panic
after exactly the two header reads — in both cases before any IFD byte is
fetched; no error value of the result type is produced. -/
theorem try_open_header_mismatch_panics (buf : Nat → Nat) :
    (bytesAt buf 0 2 ≠ [73, 73] → try_open buf = (.panicked, [CEvent.readEvt 0 2])) ∧
    (bytesAt buf 0 2 = [73, 73] → toSigned 16 (leVal (bytesAt buf 2 2)) ≠ 42 →
      try_open buf = (.panicked, [CEvent.readEvt 0 2, CEvent.readEvt 2 2])) := by
  constructor
  · intro h
    simp [try_open, Cursor.read, h]
  · intro h1 h2
    simp [try_open, Cursor.read, h1, h2]

/-- Witness for `try_open_header_mismatch_panics` at the big-endian-magic
object. -/
theorem try_open_header_mismatch_panics_witness :
    try_open bufBadMagic = (.panicked, [CEvent.readEvt 0 2]) :=
  (try_open_header_mismatch_panics bufBadMagic).1 (by decide)

/-- Claim C3 (counterexample).  A self-referential chain (the node at
offset 10 whose next-IFD offset is 10) is not detected and not reported as
a format error: the directory walk never terminates — no number of loop
iterations produces any outcome. -/
theorem open_selfloop_never_terminates :
    ¬ ImageFileDirectories.openTerminates (fun _ => .ok (mkTestIFD (some 10))) 10 := by
  rintro ⟨fuel, r, h⟩
  rw [openFuel_selfloop] at h
  exact Option.noConfusion h

/-- Claim C3 (amended).  For every well-formed chain of N nodes whose last
next-IFD offset is 0, the walk of `ImageFileDirectories::open` terminates
within N iterations and produces exactly the N directories in on-disk
chain order; but a cyclic chain is not detected: the walk on the
self-referential node at offset 10 never terminates (there is no
visited-offsets guard and no format error). -/
theorem open_chain_in_order :
    (∀ (readAt : Nat → DecodeResult ImageFileDirectory) (start : Nat)
        (nodes : List (Nat × ImageFileDirectory)), IsIFDChain readAt start nodes →
      ImageFileDirectories.openFuel readAt nodes.length (some start) [] =
        some (.ok (nodes.map Prod.snd))) ∧
    ¬ ImageFileDirectories.openTerminates (fun _ => .ok (mkTestIFD (some 10))) 10 := by
  constructor
  · intro readAt start nodes h
    simpa using openFuel_chain readAt start nodes h []
  · rintro ⟨fuel, r, h⟩
    rw [openFuel_selfloop] at h
    exact Option.noConfusion h

/-- Witness for `open_chain_in_order` on the concrete 3-node chain
100 → 200 → 300 → 0: three iterations produce the three directories in
chain order. -/
theorem open_chain_in_order_witness :
    ImageFileDirectories.openFuel readAtChain3 3 (some 100) [] =
      some (.ok [mkTestIFD (some 200), mkTestIFD (some 300), mkTestIFD none]) := by
  have hc : IsIFDChain readAtChain3 100
      [(100, mkTestIFD (some 200)), (200, mkTestIFD (some 300)), (300, mkTestIFD none)] := by
    refine IsIFDChain.cons 100 200 _ _ rfl rfl ?_
    refine IsIFDChain.cons 200 300 _ _ rfl rfl ?_
    exact IsIFDChain.last 300 _ rfl rfl
  simpa using open_chain_in_order.1 readAtChain3 100 _ hc

/-- Claim C4 (counterexample).  On the 2x2-tile directory, the request
`get_tile(2, 0)` has `x = 2 >= tile_count().0 = 2`, yet it is not rejected
with an out-of-range error: the unchecked flattened index resolves the
byte range of tile `(0, 1)` — the same outcome as the in-range request
`get_tile(0, 1)` — and the call then panics in `todo!()`. -/
theorem get_tile_out_of_range_remaps :
    ifd2x2.get_tile 2 0 = .panickedTodo 300 30 ∧
    ifd2x2.get_tile 0 1 = .panickedTodo 300 30 := by
  constructor
  · decide
  · decide

/-- Claim C4 (amended).  `get_tile` performs no bounds check: for every
directory, a request with `x >= tile_count().0` behaves exactly like the
remapped request `(x - tile_count().0, y + 1)` on the next tile row
(reading that tile's byte range when the flattened index is in range, and
panicking on the vector indexing otherwise); no out-of-range error outcome
exists, and every call ends in the `todo!()` panic. -/
theorem get_tile_no_bounds_check (d : ImageFileDirectory) (x y : Nat)
    (hx : d.tile_count.1 ≤ x) :
    d.get_tile x y = d.get_tile (x - d.tile_count.1) (y + 1) := by
  unfold ImageFileDirectory.get_tile
  have : y * d.tile_count.1 + x = (y + 1) * d.tile_count.1 + (x - d.tile_count.1) := by
    cases Nat.le.dest hx with
    | intro k hk => subst hk; ring_nf; omega
  rw [this]

/-- Witness for `get_tile_no_bounds_check`: on the 2x2 directory the
out-of-range request `(2, 0)` equals the in-range request `(0, 1)`. -/
theorem get_tile_no_bounds_check_witness :
    ifd2x2.get_tile 2 0 = ifd2x2.get_tile 0 1 :=
  get_tile_no_bounds_check ifd2x2 2 0 (by decide)

/-- Claim C5 (counterexample).  With `ModelPixelScale=[10,10,0]`,
`ModelTiepoint=[0,0,0,500000,4000000,0]` and a 100x100 image,
`native_bounds()` does not return the claimed
`(500000, 3999000, 500100, 4000000)`: the right edge is
`500000 + 10 * 100 = 501000`, not `500100`. -/
theorem native_bounds_not_500100 :
    ifdGeo.native_bounds ≠ .ok (some (500000, 3999000, 500100, 4000000)) := by
  unfold ImageFileDirectory.native_bounds ImageFileDirectory.geotransform ifdGeo mkTestIFD
  norm_num

/-- Claim C5 (amended).  With `ModelPixelScale=[10,10,0]` and
`ModelTiepoint=[0,0,0,500000,4000000,0]`, `geotransform()` yields
`a=10, b=0, c=500000, d=0, e=-10, f=4000000`, and `native_bounds()` for a
100x100 image returns `(500000, 3999000, 501000, 4000000)`. -/
theorem geotransform_and_native_bounds_values :
    ifdGeo.geotransform = .ok (some (AffineTransform.mk 10 0 500000 0 (-10) 4000000)) ∧
    ifdGeo.native_bounds = .ok (some (500000, 3999000, 501000, 4000000)) := by
  constructor
  · unfold ImageFileDirectory.geotransform ifdGeo mkTestIFD
    norm_num
  · unfold ImageFileDirectory.native_bounds ImageFileDirectory.geotransform ifdGeo mkTestIFD
    norm_num

/-- Claim C6 (counterexample).  Decoding enforces no relation between the
tile vectors and the tile grid: the well-typed tag map `tagMapOneTile`
(100x100 image, 16x16 tiles, hence a 7x7 = 49-tile grid, but 1-element
`TileOffsets`/`TileByteCounts`) decodes successfully into a directory that
violates `tile_offsets.len() == tile_byte_counts.len() ==
ceil(w/tw) * ceil(h/th)`. -/
theorem decode_violates_tile_invariant :
    (decodeOk tagMapOneTile).map tileLengthInvariant = some false := by decide

/-- Claim C6 (amended).  Every successfully decoded directory carries
`tile_offsets` and `tile_byte_counts` exactly as decoded from the
`TileOffsets`/`TileByteCounts` tag values — their lengths come from the
tag data and are never validated against
`ceil(width/tile_width) * ceil(height/tile_height)`, so a directory
violating that equality is produced (e.g. 1-element vectors with a 7x7
grid, 49 tiles). -/
theorem decode_tile_vectors_verbatim :
    (∀ (m : TagMap) (next : Option Nat) (d : ImageFileDirectory),
      ImageFileDirectory.from_tags m next = .ok d →
      tagU32Vec m .TileOffsets = some d.tile_offsets ∧
      tagU32Vec m .TileByteCounts = some d.tile_byte_counts) ∧
    (decodeOk tagMapOneTile).map
      (fun d => (d.tile_offsets.length, d.tile_byte_counts.length,
        d.tile_count.1 * d.tile_count.2)) = some (1, 1, 49) := by
  constructor
  · intro m next d h
    unfold ImageFileDirectory.from_tags at h
    simp only [Bind.bind, bind] at h
    obtain ⟨u0, h0, h⟩ := decodeBindEqOk h
    obtain ⟨geo, hgeo, h⟩ := decodeBindEqOk h
    obtain ⟨iw, hiw, h⟩ := decodeBindEqOk h
    obtain ⟨ih2, hih, h⟩ := decodeBindEqOk h
    obtain ⟨bps, hbps, h⟩ := decodeBindEqOk h
    obtain ⟨cmp, hcmp, h⟩ := decodeBindEqOk h
    obtain ⟨pi, hpi, h⟩ := decodeBindEqOk h
    obtain ⟨spp, hspp, h⟩ := decodeBindEqOk h
    obtain ⟨pc, hpc, h⟩ := decodeBindEqOk h
    obtain ⟨tw, htw, h⟩ := decodeBindEqOk h
    obtain ⟨th, hth, h⟩ := decodeBindEqOk h
    obtain ⟨toff, htoff, h⟩ := decodeBindEqOk h
    obtain ⟨tbc, htbc, h⟩ := decodeBindEqOk h
    obtain ⟨sf, hsf, h⟩ := decodeBindEqOk h
    cases h
    cases htoff' : tagU32Vec m .TileOffsets with
    | none => rw [htoff'] at htoff; simp [unwrapO] at htoff
    | some v =>
      rw [htoff'] at htoff
      simp [unwrapO] at htoff
      cases htbc' : tagU32Vec m .TileByteCounts with
      | none => rw [htbc'] at htbc; simp [unwrapO] at htbc
      | some w =>
        rw [htbc'] at htbc
        simp [unwrapO] at htbc
        subst htoff htbc
        exact ⟨rfl, rfl⟩
  · decide

/-- Witness for `decode_tile_vectors_verbatim` at `tagMapOneTile`, whose
decode succeeds with the directory `ifdOneTile`. -/
theorem decode_tile_vectors_verbatim_witness :
    tagU32Vec tagMapOneTile .TileOffsets = some ifdOneTile.tile_offsets ∧
    tagU32Vec tagMapOneTile .TileByteCounts = some ifdOneTile.tile_byte_counts :=
  decode_tile_vectors_verbatim.1 tagMapOneTile none ifdOneTile rfl

/-- Claim C8 (counterexample).  A tag map lacking `ImageWidth` (all other
required tags present and well-typed) does not make `from_tags` return an
error of the result type: the `image_width.unwrap()` in the struct literal
panics instead. -/
theorem missing_image_width_panics_not_err :
    (ImageFileDirectory.from_tags (removeTag tagMapOneTile .ImageWidth) none).isPanicked = true ∧
    (ImageFileDirectory.from_tags (removeTag tagMapOneTile .ImageWidth) none).isErr = false := by
  constructor
  · decide
  · decide

/-- Claim C8 (amended).  Removing any of the required tags `ImageWidth`,
`TileWidth`, `TileOffsets`, `Compression` or `SamplesPerPixel` from an
otherwise complete tag map makes directory assembly panic on the
corresponding `unwrap()` (not return an `Err`), and no partial directory
is produced. -/
theorem missing_required_tags_panic :
    [Tag.ImageWidth, .TileWidth, .TileOffsets, .Compression, .SamplesPerPixel].all
      (fun t => (ImageFileDirectory.from_tags (removeTag tagMapOneTile t) none).isPanicked
        && (decodeOk (removeTag tagMapOneTile t)).isNone) = true := by decide

/-- Claim C9.  For every GeoKey tag map that decodes, `epsg_code()` agrees
with the spec-side rule `epsgSpecOfKeys`: the projected-CRS key value when
`ProjectedType` is present (even if `GeographicType` is also present),
else the geographic-CRS key value, else no code; and the concrete table
with `ProjectedType = 32631` and `GeographicType = 4326` yields 32631. -/
theorem epsg_code_prefers_projected :
    (∀ (m : GeoKeyMap) (g : GeoKeyDirectory), GeoKeyDirectory.from_tags m = .ok g →
      g.epsg_code = epsgSpecOfKeys m) ∧
    (GeoKeyDirectory.from_tags gkMapBoth).toOption.map GeoKeyDirectory.epsg_code
      = some (some 32631) := by
  constructor
  · intro m g h
    unfold GeoKeyDirectory.from_tags at h
    split at h
    · cases h
      rfl
    · cases h
  · decide

/-- Witness for `epsg_code_prefers_projected` at `gkMapBoth`, which
decodes to `gkdBoth`. -/
theorem epsg_code_prefers_projected_witness :
    gkdBoth.epsg_code = epsgSpecOfKeys gkMapBoth :=
  epsg_code_prefers_projected.1 gkMapBoth gkdBoth (by decide)

/-- Claim C10.  Whenever both `ModelPixelScale` and `ModelTiepoint` are
present and `geotransform()` returns a transform, that transform has zero
rotation terms (`b = 0`, `d = 0`) and is exactly
`(scale[0], 0, tiepoint[3], 0, -scale[1], tiepoint[4])` — it depends on no
other element of either tag. -/
theorem geotransform_zero_rotation (d : ImageFileDirectory) (ps tp : List Rat)
    (t : AffineTransform) (h1 : d.model_pixel_scale = some ps)
    (h2 : d.model_tiepoint = some tp) (h : d.geotransform = .ok (some t)) :
    t = AffineTransform.mk (ps.getD 0 0) 0 (tp.getD 3 0) 0 (-(ps.getD 1 0)) (tp.getD 4 0) := by
  unfold ImageFileDirectory.geotransform at h
  rw [h1, h2] at h
  cases hs0 : ps[0]? <;> cases hs1 : ps[1]? <;> cases ht3 : tp[3]? <;> cases ht4 : tp[4]? <;>
    simp [hs0, hs1, ht3, ht4] at h
  subst h
  simp [List.getD, hs0, hs1, ht3, ht4]

/-- Witness for `geotransform_zero_rotation` at the concrete fixture
`ifdGeo`. -/
theorem geotransform_zero_rotation_witness :
    AffineTransform.mk 10 0 500000 0 (-10) 4000000 =
      AffineTransform.mk ([(10 : Rat), 10, 0].getD 0 0) 0
        ([(0 : Rat), 0, 0, 500000, 4000000, 0].getD 3 0) 0
        (-([(10 : Rat), 10, 0].getD 1 0)) ([(0 : Rat), 0, 0, 500000, 4000000, 0].getD 4 0) :=
  geotransform_zero_rotation ifdGeo [10, 10, 0] [0, 0, 0, 500000, 4000000, 0]
    (AffineTransform.mk 10 0 500000 0 (-10) 4000000) rfl rfl rfl

theorem bytesAt_take (buf : Nat → Nat) (p n k : Nat) :
    (bytesAt buf p n).take k = bytesAt buf p (min k n) := by
  simp [bytesAt, ← List.map_take, List.take_range]

theorem contiguousReadTotal_readEvts (width : Nat) :
    ∀ (n p : Nat), contiguousReadTotal p (readEvts p width n) = some (width * n) := by
  intro n
  induction n with
  | zero => intro p; simp [readEvts, contiguousReadTotal]
  | succ m ih =>
    intro p
    simp [readEvts, contiguousReadTotal, ih (p + width), Nat.mul_succ]
    omega

theorem readScalarLoop_snd (width : Nat) :
    ∀ (n : Nat) (c : Cursor), (readScalarLoop width n c).2 =
      { buf := c.buf, pos := c.pos + width * n, log := c.log ++ readEvts c.pos width n } := by
  intro n
  induction n with
  | zero =>
    intro c
    simp [readScalarLoop, readEvts]
  | succ m ih =>
    intro c
    simp only [readScalarLoop, Cursor.read, ih]
    simp [readEvts, Cursor.mk.injEq, Nat.mul_succ]
    omega

theorem readRationalLoop_snd :
    ∀ (n : Nat) (c : Cursor), (readRationalLoop n c).2 =
      { buf := c.buf, pos := c.pos + 8 * n, log := c.log ++ readEvts c.pos 4 (2 * n) } := by
  intro n
  induction n with
  | zero =>
    intro c
    simp [readRationalLoop, readEvts]
  | succ m ih =>
    intro c
    simp only [readRationalLoop, Cursor.readU32, Cursor.read, ih]
    have h2 : 2 * (m + 1) = (2 * m) + 1 + 1 := by omega
    simp [h2, readEvts, Cursor.mk.injEq]
    omega
set_option maxHeartbeats 4000000 in
theorem read_tag_value_locality_one (c : Cursor) (t : TagType) (v : Value) (c' : Cursor)
    (h : read_tag_value c t 1 = .ok (v, c')) :
    (1 * t.tagSize ≤ 4 →
      ∃ evts, c'.log = c.log ++ evts ∧ evts.all (eventWithin c.pos (c.pos + 4)) = true) ∧
    (4 < 1 * t.tagSize →
      ∃ pre post, c'.log = c.log ++ pre ++ CEvent.seekEvt (u32At c.buf c.pos) :: post ∧
        (∀ e ∈ pre, ∃ p l, e = CEvent.readEvt p l) ∧
        contiguousReadTotal (u32At c.buf c.pos) post = some (1 * t.tagSize)) := by
  unfold read_tag_value at h
  rw [if_neg (show ¬ ((1 : Nat) = 0) by omega), if_pos rfl] at h
  cases t
  · -- BYTE
    dsimp only at h
    simp only [TagType.tagSize, one_mul]
    simp only [TagType.tagSize, Cursor.read, one_mul, DecodeResult.ok.injEq,
      Prod.mk.injEq] at h
    obtain ⟨hv, hc⟩ := h
    subst hc
    refine ⟨fun hle => ⟨_, rfl, ?_⟩, fun hgt => absurd hgt (by omega)⟩
    simp [eventWithin] <;> omega
  · -- ASCII
    dsimp only at h
    simp only [TagType.tagSize, one_mul]
    simp only [TagType.tagSize, Cursor.read, one_mul] at h
    split_ifs at h with hz
    simp only [DecodeResult.ok.injEq, Prod.mk.injEq] at h
    obtain ⟨hv, hc⟩ := h
    subst hc
    refine ⟨fun hle => ⟨_, rfl, ?_⟩, fun hgt => absurd hgt (by omega)⟩
    simp [eventWithin] <;> omega
  · -- SHORT
    dsimp only at h
    simp only [TagType.tagSize, one_mul]
    simp only [TagType.tagSize, Cursor.read, one_mul, DecodeResult.ok.injEq,
      Prod.mk.injEq] at h
    obtain ⟨hv, hc⟩ := h
    subst hc
    refine ⟨fun hle => ⟨_, rfl, ?_⟩, fun hgt => absurd hgt (by omega)⟩
    simp [eventWithin] <;> omega
  · -- LONG
    dsimp only at h
    simp only [TagType.tagSize, one_mul]
    simp only [TagType.tagSize, Cursor.read, one_mul, DecodeResult.ok.injEq,
      Prod.mk.injEq] at h
    obtain ⟨hv, hc⟩ := h
    subst hc
    refine ⟨fun hle => ⟨_, rfl, ?_⟩, fun hgt => absurd hgt (by omega)⟩
    simp [eventWithin] <;> omega
  · -- RATIONAL
    dsimp only at h
    simp only [TagType.tagSize, one_mul]
    simp only [TagType.tagSize, Cursor.read, Cursor.seek, Cursor.readU32, one_mul,
      bytesAt_take, show min 4 8 = 4 from rfl, DecodeResult.ok.injEq, Prod.mk.injEq] at h
    obtain ⟨hv, hc⟩ := h
    subst hc
    refine ⟨fun hle => absurd hle (by omega), fun _ =>
      ⟨[CEvent.readEvt c.pos 8],
        [CEvent.readEvt (u32At c.buf c.pos) 4, CEvent.readEvt (u32At c.buf c.pos + 4) 4],
        ?_, ?_, ?_⟩⟩
    · simp [u32At]
    · intro e he
      simp only [List.mem_singleton] at he
      exact ⟨_, _, he⟩
    · simp [contiguousReadTotal, u32At]
  · -- SBYTE
    dsimp only at h
    simp only [TagType.tagSize, one_mul]
    simp only [TagType.tagSize, Cursor.read, one_mul, DecodeResult.ok.injEq,
      Prod.mk.injEq] at h
    obtain ⟨hv, hc⟩ := h
    subst hc
    refine ⟨fun hle => ⟨_, rfl, ?_⟩, fun hgt => absurd hgt (by omega)⟩
    simp [eventWithin] <;> omega
  · -- UNDEFINED
    dsimp only at h
    simp only [TagType.tagSize, one_mul]
    simp only [TagType.tagSize, Cursor.read, one_mul, DecodeResult.ok.injEq,
      Prod.mk.injEq] at h
    obtain ⟨hv, hc⟩ := h
    subst hc
    refine ⟨fun hle => ⟨_, rfl, ?_⟩, fun hgt => absurd hgt (by omega)⟩
    simp [eventWithin] <;> omega
  · -- SSHORT
    dsimp only at h
    simp only [TagType.tagSize, one_mul]
    simp only [TagType.tagSize, Cursor.read, one_mul, DecodeResult.ok.injEq,
      Prod.mk.injEq] at h
    obtain ⟨hv, hc⟩ := h
    subst hc
    refine ⟨fun hle => ⟨_, rfl, ?_⟩, fun hgt => absurd hgt (by omega)⟩
    simp [eventWithin] <;> omega
  · -- SLONG
    dsimp only at h
    simp only [TagType.tagSize, one_mul]
    simp only [TagType.tagSize, Cursor.read, one_mul, DecodeResult.ok.injEq,
      Prod.mk.injEq] at h
    obtain ⟨hv, hc⟩ := h
    subst hc
    refine ⟨fun hle => ⟨_, rfl, ?_⟩, fun hgt => absurd hgt (by omega)⟩
    simp [eventWithin] <;> omega
  · -- SRATIONAL
    dsimp only at h
    simp only [TagType.tagSize, one_mul]
    simp only [TagType.tagSize, Cursor.read, Cursor.seek, Cursor.readI32, one_mul,
      bytesAt_take, show min 4 8 = 4 from rfl, DecodeResult.ok.injEq, Prod.mk.injEq] at h
    obtain ⟨hv, hc⟩ := h
    subst hc
    refine ⟨fun hle => absurd hle (by omega), fun _ =>
      ⟨[CEvent.readEvt c.pos 8],
        [CEvent.readEvt (u32At c.buf c.pos) 4, CEvent.readEvt (u32At c.buf c.pos + 4) 4],
        ?_, ?_, ?_⟩⟩
    · simp [u32At]
    · intro e he
      simp only [List.mem_singleton] at he
      exact ⟨_, _, he⟩
    · simp [contiguousReadTotal, u32At]
  · -- FLOAT
    dsimp only at h
    simp only [TagType.tagSize, one_mul]
    simp only [TagType.tagSize, Cursor.read, one_mul, DecodeResult.ok.injEq,
      Prod.mk.injEq] at h
    obtain ⟨hv, hc⟩ := h
    subst hc
    refine ⟨fun hle => ⟨_, rfl, ?_⟩, fun hgt => absurd hgt (by omega)⟩
    simp [eventWithin] <;> omega
  · -- DOUBLE
    dsimp only at h
    simp only [TagType.tagSize, one_mul]
    simp only [TagType.tagSize, Cursor.read, Cursor.seek, Cursor.readF64, one_mul,
      bytesAt_take, show min 4 8 = 4 from rfl, DecodeResult.ok.injEq, Prod.mk.injEq] at h
    obtain ⟨hv, hc⟩ := h
    subst hc
    refine ⟨fun hle => absurd hle (by omega), fun _ =>
      ⟨[CEvent.readEvt c.pos 8], [CEvent.readEvt (u32At c.buf c.pos) 8], ?_, ?_, ?_⟩⟩
    · simp [u32At]
    · intro e he
      simp only [List.mem_singleton] at he
      exact ⟨_, _, he⟩
    · simp [contiguousReadTotal, u32At]
  · -- IFD
    dsimp only at h
    simp only [TagType.tagSize, one_mul]
    simp only [TagType.tagSize, Cursor.read, one_mul, DecodeResult.ok.injEq,
      Prod.mk.injEq] at h
    obtain ⟨hv, hc⟩ := h
    subst hc
    refine ⟨fun hle => ⟨_, rfl, ?_⟩, fun hgt => absurd hgt (by omega)⟩
    simp [eventWithin] <;> omega
  · -- LONG8
    dsimp only at h
    simp only [TagType.tagSize, one_mul]
    simp only [TagType.tagSize, Cursor.read, Cursor.seek, Cursor.readU64, one_mul,
      bytesAt_take, show min 4 8 = 4 from rfl, DecodeResult.ok.injEq, Prod.mk.injEq] at h
    obtain ⟨hv, hc⟩ := h
    subst hc
    refine ⟨fun hle => absurd hle (by omega), fun _ =>
      ⟨[CEvent.readEvt c.pos 8], [CEvent.readEvt (u32At c.buf c.pos) 8], ?_, ?_, ?_⟩⟩
    · simp [u32At]
    · intro e he
      simp only [List.mem_singleton] at he
      exact ⟨_, _, he⟩
    · simp [contiguousReadTotal, u32At]
  · -- SLONG8
    dsimp only at h
    simp only [TagType.tagSize, one_mul]
    simp only [TagType.tagSize, Cursor.read, Cursor.seek, Cursor.readI64, one_mul,
      bytesAt_take, show min 4 8 = 4 from rfl, DecodeResult.ok.injEq, Prod.mk.injEq] at h
    obtain ⟨hv, hc⟩ := h
    subst hc
    refine ⟨fun hle => absurd hle (by omega), fun _ =>
      ⟨[CEvent.readEvt c.pos 8], [CEvent.readEvt (u32At c.buf c.pos) 8], ?_, ?_, ?_⟩⟩
    · simp [u32At]
    · intro e he
      simp only [List.mem_singleton] at he
      exact ⟨_, _, he⟩
    · simp [contiguousReadTotal, u32At]
  · -- IFD8
    dsimp only at h
    simp only [TagType.tagSize, one_mul]
    simp only [TagType.tagSize, Cursor.read, Cursor.seek, Cursor.readU64, one_mul,
      bytesAt_take, show min 4 8 = 4 from rfl, DecodeResult.ok.injEq, Prod.mk.injEq] at h
    obtain ⟨hv, hc⟩ := h
    subst hc
    refine ⟨fun hle => absurd hle (by omega), fun _ =>
      ⟨[CEvent.readEvt c.pos 8], [CEvent.readEvt (u32At c.buf c.pos) 8], ?_, ?_, ?_⟩⟩
    · simp [u32At]
    · intro e he
      simp only [List.mem_singleton] at he
      exact ⟨_, _, he⟩
    · simp [contiguousReadTotal, u32At]

set_option maxHeartbeats 4000000 in
theorem read_tag_value_locality_many (c : Cursor) (t : TagType) (m : Nat) (v : Value) (c' : Cursor)
    (h : read_tag_value c t (m + 2) = .ok (v, c')) :
    ((m + 2) * t.tagSize ≤ 4 →
      ∃ evts, c'.log = c.log ++ evts ∧ evts.all (eventWithin c.pos (c.pos + 4)) = true) ∧
    (4 < (m + 2) * t.tagSize →
      ∃ pre post, c'.log = c.log ++ pre ++ CEvent.seekEvt (u32At c.buf c.pos) :: post ∧
        (∀ e ∈ pre, ∃ p l, e = CEvent.readEvt p l) ∧
        contiguousReadTotal (u32At c.buf c.pos) post = some ((m + 2) * t.tagSize)) := by
  unfold read_tag_value at h
  rw [if_neg (show ¬ (m + 2 = 0) by omega), if_neg (show ¬ (m + 2 = 1) by omega)] at h
  cases t
  · -- BYTE
    dsimp only at h
    simp only [TagType.tagSize]
    simp only [TagType.tagSize] at h
    by_cases hle : (m + 2) * 1 ≤ 4
    · rw [if_pos hle] at h
      simp only [Cursor.read, Cursor.advance] at h
      split at h
      · simp only [DecodeResult.ok.injEq, Prod.mk.injEq] at h
        obtain ⟨hv, hc⟩ := h
        subst hc
        refine ⟨fun _ => ⟨_, rfl, ?_⟩, fun hgt => absurd hgt (by omega)⟩
        simp [eventWithin] <;> omega
      · simp at h
    · rw [if_neg hle] at h
      simp only [Cursor.read, Cursor.seek] at h
      rw [readScalarLoop_snd] at h
      simp only [DecodeResult.ok.injEq, Prod.mk.injEq] at h
      obtain ⟨hv, hc⟩ := h
      subst hc
      refine ⟨fun hc4 => absurd hc4 (by omega), fun _ =>
        ⟨[CEvent.readEvt c.pos 4], readEvts (u32At c.buf c.pos) 1 (m + 2), ?_, ?_, ?_⟩⟩
      · simp [u32At]
      · intro e he
        simp only [List.mem_singleton] at he
        exact ⟨_, _, he⟩
      · rw [contiguousReadTotal_readEvts]
        simp only [Option.some.injEq]
        omega
  · -- ASCII
    dsimp only at h
    simp only [TagType.tagSize, mul_one]
    simp only [TagType.tagSize, mul_one] at h
    by_cases hle : m + 2 ≤ 4
    · rw [if_pos hle] at h
      simp only [Cursor.read, Cursor.advance] at h
      split_ifs at h with hascii
      simp only [DecodeResult.ok.injEq, Prod.mk.injEq] at h
      obtain ⟨hv, hc⟩ := h
      subst hc
      refine ⟨fun _ => ⟨_, rfl, ?_⟩, fun hgt => absurd hgt (by omega)⟩
      simp [eventWithin] <;> omega
    · rw [if_neg hle] at h
      simp only [Cursor.read, Cursor.seek] at h
      split at h
      · simp only [DecodeResult.ok.injEq, Prod.mk.injEq] at h
        obtain ⟨hv, hc⟩ := h
        subst hc
        refine ⟨fun hc4 => absurd hc4 (by omega), fun _ =>
          ⟨[CEvent.readEvt c.pos 4], [CEvent.readEvt (u32At c.buf c.pos) (m + 2)], ?_, ?_, ?_⟩⟩
        · simp [u32At]
        · intro e he
          simp only [List.mem_singleton] at he
          exact ⟨_, _, he⟩
        · simp [contiguousReadTotal]
      · simp at h
  · -- SHORT
    dsimp only at h
    simp only [TagType.tagSize]
    simp only [TagType.tagSize] at h
    by_cases hle : (m + 2) * 2 ≤ 4
    · rw [if_pos hle] at h
      simp only [Cursor.read, Cursor.advance] at h
      split at h
      · simp only [DecodeResult.ok.injEq, Prod.mk.injEq] at h
        obtain ⟨hv, hc⟩ := h
        subst hc
        refine ⟨fun _ => ⟨_, rfl, ?_⟩, fun hgt => absurd hgt (by omega)⟩
        simp [eventWithin] <;> omega
      · simp at h
    · rw [if_neg hle] at h
      simp only [Cursor.read, Cursor.seek] at h
      rw [readScalarLoop_snd] at h
      simp only [DecodeResult.ok.injEq, Prod.mk.injEq] at h
      obtain ⟨hv, hc⟩ := h
      subst hc
      refine ⟨fun hc4 => absurd hc4 (by omega), fun _ =>
        ⟨[CEvent.readEvt c.pos 4], readEvts (u32At c.buf c.pos) 2 (m + 2), ?_, ?_, ?_⟩⟩
      · simp [u32At]
      · intro e he
        simp only [List.mem_singleton] at he
        exact ⟨_, _, he⟩
      · rw [contiguousReadTotal_readEvts]
        simp only [Option.some.injEq]
        omega
  · -- LONG
    dsimp only at h
    simp only [TagType.tagSize]
    simp only [TagType.tagSize] at h
    by_cases hle : (m + 2) * 4 ≤ 4
    · rw [if_pos hle] at h
      simp only [Cursor.read, Cursor.advance] at h
      split at h
      · simp only [DecodeResult.ok.injEq, Prod.mk.injEq] at h
        obtain ⟨hv, hc⟩ := h
        subst hc
        refine ⟨fun _ => ⟨_, rfl, ?_⟩, fun hgt => absurd hgt (by omega)⟩
        simp [eventWithin] <;> omega
      · simp at h
    · rw [if_neg hle] at h
      simp only [Cursor.read, Cursor.seek] at h
      rw [readScalarLoop_snd] at h
      simp only [DecodeResult.ok.injEq, Prod.mk.injEq] at h
      obtain ⟨hv, hc⟩ := h
      subst hc
      refine ⟨fun hc4 => absurd hc4 (by omega), fun _ =>
        ⟨[CEvent.readEvt c.pos 4], readEvts (u32At c.buf c.pos) 4 (m + 2), ?_, ?_, ?_⟩⟩
      · simp [u32At]
      · intro e he
        simp only [List.mem_singleton] at he
        exact ⟨_, _, he⟩
      · rw [contiguousReadTotal_readEvts]
        simp only [Option.some.injEq]
        omega
  · -- RATIONAL
    dsimp only at h
    simp only [TagType.tagSize]
    simp only [TagType.tagSize] at h
    rw [if_neg (show ¬ ((m + 2) * 8 ≤ 4) by omega)] at h
    simp only [Cursor.read, Cursor.seek] at h
    rw [readRationalLoop_snd] at h
    simp only [DecodeResult.ok.injEq, Prod.mk.injEq] at h
    obtain ⟨hv, hc⟩ := h
    subst hc
    refine ⟨fun hle => absurd hle (by omega), fun _ =>
      ⟨[CEvent.readEvt c.pos 4], readEvts (u32At c.buf c.pos) 4 (2 * (m + 2)), ?_, ?_, ?_⟩⟩
    · simp [u32At]
    · intro e he
      simp only [List.mem_singleton] at he
      exact ⟨_, _, he⟩
    · rw [contiguousReadTotal_readEvts]
      simp only [Option.some.injEq]
      omega
  · -- SBYTE
    dsimp only at h
    simp only [TagType.tagSize]
    simp only [TagType.tagSize] at h
    by_cases hle : (m + 2) * 1 ≤ 4
    · rw [if_pos hle] at h
      simp only [Cursor.read, Cursor.advance] at h
      split at h
      · simp only [DecodeResult.ok.injEq, Prod.mk.injEq] at h
        obtain ⟨hv, hc⟩ := h
        subst hc
        refine ⟨fun _ => ⟨_, rfl, ?_⟩, fun hgt => absurd hgt (by omega)⟩
        simp [eventWithin] <;> omega
      · simp at h
    · rw [if_neg hle] at h
      simp only [Cursor.read, Cursor.seek] at h
      rw [readScalarLoop_snd] at h
      simp only [DecodeResult.ok.injEq, Prod.mk.injEq] at h
      obtain ⟨hv, hc⟩ := h
      subst hc
      refine ⟨fun hc4 => absurd hc4 (by omega), fun _ =>
        ⟨[CEvent.readEvt c.pos 4], readEvts (u32At c.buf c.pos) 1 (m + 2), ?_, ?_, ?_⟩⟩
      · simp [u32At]
      · intro e he
        simp only [List.mem_singleton] at he
        exact ⟨_, _, he⟩
      · rw [contiguousReadTotal_readEvts]
        simp only [Option.some.injEq]
        omega
  · -- UNDEFINED
    dsimp only at h
    simp only [TagType.tagSize]
    simp only [TagType.tagSize] at h
    by_cases hle : (m + 2) * 1 ≤ 4
    · rw [if_pos hle] at h
      simp only [Cursor.read, Cursor.advance] at h
      split at h
      · simp only [DecodeResult.ok.injEq, Prod.mk.injEq] at h
        obtain ⟨hv, hc⟩ := h
        subst hc
        refine ⟨fun _ => ⟨_, rfl, ?_⟩, fun hgt => absurd hgt (by omega)⟩
        simp [eventWithin] <;> omega
      · simp at h
    · rw [if_neg hle] at h
      simp only [Cursor.read, Cursor.seek] at h
      rw [readScalarLoop_snd] at h
      simp only [DecodeResult.ok.injEq, Prod.mk.injEq] at h
      obtain ⟨hv, hc⟩ := h
      subst hc
      refine ⟨fun hc4 => absurd hc4 (by omega), fun _ =>
        ⟨[CEvent.readEvt c.pos 4], readEvts (u32At c.buf c.pos) 1 (m + 2), ?_, ?_, ?_⟩⟩
      · simp [u32At]
      · intro e he
        simp only [List.mem_singleton] at he
        exact ⟨_, _, he⟩
      · rw [contiguousReadTotal_readEvts]
        simp only [Option.some.injEq]
        omega
  · -- SSHORT
    dsimp only at h
    simp only [TagType.tagSize]
    simp only [TagType.tagSize] at h
    by_cases hle : (m + 2) * 2 ≤ 4
    · rw [if_pos hle] at h
      simp only [Cursor.read, Cursor.advance] at h
      split at h
      · simp only [DecodeResult.ok.injEq, Prod.mk.injEq] at h
        obtain ⟨hv, hc⟩ := h
        subst hc
        refine ⟨fun _ => ⟨_, rfl, ?_⟩, fun hgt => absurd hgt (by omega)⟩
        simp [eventWithin] <;> omega
      · simp at h
    · rw [if_neg hle] at h
      simp only [Cursor.read, Cursor.seek] at h
      rw [readScalarLoop_snd] at h
      simp only [DecodeResult.ok.injEq, Prod.mk.injEq] at h
      obtain ⟨hv, hc⟩ := h
      subst hc
      refine ⟨fun hc4 => absurd hc4 (by omega), fun _ =>
        ⟨[CEvent.readEvt c.pos 4], readEvts (u32At c.buf c.pos) 2 (m + 2), ?_, ?_, ?_⟩⟩
      · simp [u32At]
      · intro e he
        simp only [List.mem_singleton] at he
        exact ⟨_, _, he⟩
      · rw [contiguousReadTotal_readEvts]
        simp only [Option.some.injEq]
        omega
  · -- SLONG
    dsimp only at h
    simp only [TagType.tagSize]
    simp only [TagType.tagSize] at h
    by_cases hle : (m + 2) * 4 ≤ 4
    · rw [if_pos hle] at h
      simp only [Cursor.read, Cursor.advance] at h
      split at h
      · simp only [DecodeResult.ok.injEq, Prod.mk.injEq] at h
        obtain ⟨hv, hc⟩ := h
        subst hc
        refine ⟨fun _ => ⟨_, rfl, ?_⟩, fun hgt => absurd hgt (by omega)⟩
        simp [eventWithin] <;> omega
      · simp at h
    · rw [if_neg hle] at h
      simp only [Cursor.read, Cursor.seek] at h
      rw [readScalarLoop_snd] at h
      simp only [DecodeResult.ok.injEq, Prod.mk.injEq] at h
      obtain ⟨hv, hc⟩ := h
      subst hc
      refine ⟨fun hc4 => absurd hc4 (by omega), fun _ =>
        ⟨[CEvent.readEvt c.pos 4], readEvts (u32At c.buf c.pos) 4 (m + 2), ?_, ?_, ?_⟩⟩
      · simp [u32At]
      · intro e he
        simp only [List.mem_singleton] at he
        exact ⟨_, _, he⟩
      · rw [contiguousReadTotal_readEvts]
        simp only [Option.some.injEq]
        omega
  · -- SRATIONAL
    dsimp only at h
    simp only [TagType.tagSize]
    simp only [TagType.tagSize] at h
    rw [if_neg (show ¬ ((m + 2) * 8 ≤ 4) by omega)] at h
    simp only [Cursor.read, Cursor.seek] at h
    rw [readRationalLoop_snd] at h
    simp only [DecodeResult.ok.injEq, Prod.mk.injEq] at h
    obtain ⟨hv, hc⟩ := h
    subst hc
    refine ⟨fun hle => absurd hle (by omega), fun _ =>
      ⟨[CEvent.readEvt c.pos 4], readEvts (u32At c.buf c.pos) 4 (2 * (m + 2)), ?_, ?_, ?_⟩⟩
    · simp [u32At]
    · intro e he
      simp only [List.mem_singleton] at he
      exact ⟨_, _, he⟩
    · rw [contiguousReadTotal_readEvts]
      simp only [Option.some.injEq]
      omega
  · -- FLOAT
    dsimp only at h
    simp only [TagType.tagSize]
    simp only [TagType.tagSize] at h
    by_cases hle : (m + 2) * 4 ≤ 4
    · rw [if_pos hle] at h
      simp only [Cursor.read, Cursor.advance] at h
      split at h
      · simp only [DecodeResult.ok.injEq, Prod.mk.injEq] at h
        obtain ⟨hv, hc⟩ := h
        subst hc
        refine ⟨fun _ => ⟨_, rfl, ?_⟩, fun hgt => absurd hgt (by omega)⟩
        simp [eventWithin] <;> omega
      · simp at h
    · rw [if_neg hle] at h
      simp only [Cursor.read, Cursor.seek] at h
      rw [readScalarLoop_snd] at h
      simp only [DecodeResult.ok.injEq, Prod.mk.injEq] at h
      obtain ⟨hv, hc⟩ := h
      subst hc
      refine ⟨fun hc4 => absurd hc4 (by omega), fun _ =>
        ⟨[CEvent.readEvt c.pos 4], readEvts (u32At c.buf c.pos) 4 (m + 2), ?_, ?_, ?_⟩⟩
      · simp [u32At]
      · intro e he
        simp only [List.mem_singleton] at he
        exact ⟨_, _, he⟩
      · rw [contiguousReadTotal_readEvts]
        simp only [Option.some.injEq]
        omega
  · -- DOUBLE
    dsimp only at h
    simp only [TagType.tagSize]
    simp only [TagType.tagSize] at h
    rw [if_neg (show ¬ ((m + 2) * 8 ≤ 4) by omega)] at h
    simp only [Cursor.read, Cursor.seek] at h
    rw [readScalarLoop_snd] at h
    simp only [DecodeResult.ok.injEq, Prod.mk.injEq] at h
    obtain ⟨hv, hc⟩ := h
    subst hc
    refine ⟨fun hle => absurd hle (by omega), fun _ =>
      ⟨[CEvent.readEvt c.pos 4], readEvts (u32At c.buf c.pos) 8 (m + 2), ?_, ?_, ?_⟩⟩
    · simp [u32At]
    · intro e he
      simp only [List.mem_singleton] at he
      exact ⟨_, _, he⟩
    · rw [contiguousReadTotal_readEvts]
      simp only [Option.some.injEq]
      omega
  · -- IFD
    dsimp only at h
    simp only [TagType.tagSize]
    simp only [TagType.tagSize] at h
    by_cases hle : (m + 2) * 4 ≤ 4
    · rw [if_pos hle] at h
      simp only [Cursor.read, Cursor.advance] at h
      split at h
      · simp only [DecodeResult.ok.injEq, Prod.mk.injEq] at h
        obtain ⟨hv, hc⟩ := h
        subst hc
        refine ⟨fun _ => ⟨_, rfl, ?_⟩, fun hgt => absurd hgt (by omega)⟩
        simp [eventWithin] <;> omega
      · simp at h
    · rw [if_neg hle] at h
      simp only [Cursor.read, Cursor.seek] at h
      rw [readScalarLoop_snd] at h
      simp only [DecodeResult.ok.injEq, Prod.mk.injEq] at h
      obtain ⟨hv, hc⟩ := h
      subst hc
      refine ⟨fun hc4 => absurd hc4 (by omega), fun _ =>
        ⟨[CEvent.readEvt c.pos 4], readEvts (u32At c.buf c.pos) 4 (m + 2), ?_, ?_, ?_⟩⟩
      · simp [u32At]
      · intro e he
        simp only [List.mem_singleton] at he
        exact ⟨_, _, he⟩
      · rw [contiguousReadTotal_readEvts]
        simp only [Option.some.injEq]
        omega
  · -- LONG8
    dsimp only at h
    simp only [TagType.tagSize]
    simp only [TagType.tagSize] at h
    rw [if_neg (show ¬ ((m + 2) * 8 ≤ 4) by omega)] at h
    simp only [Cursor.read, Cursor.seek] at h
    rw [readScalarLoop_snd] at h
    simp only [DecodeResult.ok.injEq, Prod.mk.injEq] at h
    obtain ⟨hv, hc⟩ := h
    subst hc
    refine ⟨fun hle => absurd hle (by omega), fun _ =>
      ⟨[CEvent.readEvt c.pos 4], readEvts (u32At c.buf c.pos) 8 (m + 2), ?_, ?_, ?_⟩⟩
    · simp [u32At]
    · intro e he
      simp only [List.mem_singleton] at he
      exact ⟨_, _, he⟩
    · rw [contiguousReadTotal_readEvts]
      simp only [Option.some.injEq]
      omega
  · -- SLONG8
    dsimp only at h
    simp only [TagType.tagSize]
    simp only [TagType.tagSize] at h
    rw [if_neg (show ¬ ((m + 2) * 8 ≤ 4) by omega)] at h
    simp only [Cursor.read, Cursor.seek] at h
    rw [readScalarLoop_snd] at h
    simp only [DecodeResult.ok.injEq, Prod.mk.injEq] at h
    obtain ⟨hv, hc⟩ := h
    subst hc
    refine ⟨fun hle => absurd hle (by omega), fun _ =>
      ⟨[CEvent.readEvt c.pos 4], readEvts (u32At c.buf c.pos) 8 (m + 2), ?_, ?_, ?_⟩⟩
    · simp [u32At]
    · intro e he
      simp only [List.mem_singleton] at he
      exact ⟨_, _, he⟩
    · rw [contiguousReadTotal_readEvts]
      simp only [Option.some.injEq]
      omega
  · -- IFD8
    dsimp only at h
    simp only [TagType.tagSize]
    simp only [TagType.tagSize] at h
    rw [if_neg (show ¬ ((m + 2) * 8 ≤ 4) by omega)] at h
    simp only [Cursor.read, Cursor.seek] at h
    rw [readScalarLoop_snd] at h
    simp only [DecodeResult.ok.injEq, Prod.mk.injEq] at h
    obtain ⟨hv, hc⟩ := h
    subst hc
    refine ⟨fun hle => absurd hle (by omega), fun _ =>
      ⟨[CEvent.readEvt c.pos 4], readEvts (u32At c.buf c.pos) 8 (m + 2), ?_, ?_, ?_⟩⟩
    · simp [u32At]
    · intro e he
      simp only [List.mem_singleton] at he
      exact ⟨_, _, he⟩
    · rw [contiguousReadTotal_readEvts]
      simp only [Option.some.injEq]
      omega

/-- Claim C7.  Decoding one tag value is read-local: for every cursor state
and every tag record with `count >= 1` that decodes successfully, (a) if
`count * element_width <= 4` every remote access the decode performs is a
read lying inside the record's 4-byte inline value field (no seek, hence no
fetch outside the 12-byte record, whose value field this is); and (b) if
`count * element_width > 4` the decode seeks to the little-endian `u32`
stored in the record's 4-byte value field and the reads issued after that
seek are laid end to end from that offset totalling exactly
`count * element_width` bytes. -/
theorem read_tag_value_read_locality (c : Cursor) (t : TagType) (n : Nat) (v : Value) (c' : Cursor)
    (h1 : 1 ≤ n) (h : read_tag_value c t n = .ok (v, c')) :
    (n * t.tagSize ≤ 4 →
      ∃ evts, c'.log = c.log ++ evts ∧ evts.all (eventWithin c.pos (c.pos + 4)) = true) ∧
    (4 < n * t.tagSize →
      ∃ pre post, c'.log = c.log ++ pre ++ CEvent.seekEvt (u32At c.buf c.pos) :: post ∧
        (∀ e ∈ pre, ∃ p l, e = CEvent.readEvt p l) ∧
        contiguousReadTotal (u32At c.buf c.pos) post = some (n * t.tagSize)) := by
  by_cases hn1 : n = 1
  · subst hn1
    exact read_tag_value_locality_one c t v c' h
  · obtain ⟨m, hm⟩ : ∃ k, n = k + 2 := ⟨n - 2, by omega⟩
    subst hm
    exact read_tag_value_locality_many c t m v c' h

/-- Witness for `read_tag_value_read_locality`: a single inline SHORT value
decoded from a fresh all-zero cursor reads exactly its two value-field
bytes. -/
theorem read_tag_value_read_locality_witness :
    (1 * TagType.tagSize .SHORT ≤ 4 →
      ∃ evts, cursorAfterShort.log = cursorZero.log ++ evts ∧
        evts.all (eventWithin cursorZero.pos (cursorZero.pos + 4)) = true) ∧
    (4 < 1 * TagType.tagSize .SHORT →
      ∃ pre post, cursorAfterShort.log = cursorZero.log ++ pre ++
          CEvent.seekEvt (u32At cursorZero.buf cursorZero.pos) :: post ∧
        (∀ e ∈ pre, ∃ p l, e = CEvent.readEvt p l) ∧
        contiguousReadTotal (u32At cursorZero.buf cursorZero.pos) post =
          some (1 * TagType.tagSize .SHORT)) :=
  read_tag_value_read_locality cursorZero .SHORT 1 (.short 0) cursorAfterShort
    (by omega) rfl
